import Mathlib

/-!
# Configuration-map glue of the quorum-device client (`qdevices/qdevice-net-cmap.c`)

A shallow embedding of the functions of `qdevice-net-cmap.c` and theorems about them.

Conventions of the embedding

* C integers are `Nat` (unsigned) or `Int` (signed); conversions between `int` and
  `uint32_t` are the explicit functions `toUInt32` and `toInt32` (two's complement).
* Calls into libraries whose code is outside this file (`getaddrinfo`, the cmap client
  API, the memory allocator, the message sender) are parameters: each is represented by
  the values it hands back to the caller.
* C strings are `String`.
-/

namespace Qdevice

/-! ## Machine integers -/

/-- Conversion of an `int` to `uint32_t`: reduction modulo `2^32`. -/
def toUInt32 (i : Int) : Nat := (i % 2 ^ 32).toNat

/-- Conversion of a 32-bit pattern to `int` (two's complement). -/
def toInt32 (x : Nat) : Int :=
  if x % 2 ^ 32 < 2 ^ 31 then ((x % 2 ^ 32 : Nat) : Int) else ((x % 2 ^ 32 : Nat) : Int) - 2 ^ 32

/-- The operator `&` on two `int` operands: bitwise and of the two's complement patterns. -/
def int_and (x y : Int) : Int := toInt32 (toUInt32 x &&& toUInt32 y)

/-- Byte order of the host. -/
inductive Endian where
  | little
  | big
deriving DecidableEq, Repr

/-- A `struct in_addr`: the four bytes of the address as they lie in memory.  The socket
API keeps them in network order, so `a.b.c.d` is stored as `b0 = a`, ..., `b3 = d`. -/
structure in_addr where
  b0 : Nat
  b1 : Nat
  b2 : Nat
  b3 : Nat
deriving DecidableEq, Repr

/-- The part of a `struct addrinfo` the code reads: `ai_family` and the `sin_addr` of
`ai_addr`. -/
structure addrinfo where
  ai_family : Int
  sin_addr : in_addr
deriving DecidableEq, Repr

/-- The address family constant `AF_INET` of `<sys/socket.h>`. -/
def AF_INET : Int := 2

/-- `memcpy(&i, &sin_addr, sizeof(struct in_addr))` with `int i`: the four bytes become
the object representation of an `int`, read in the byte order of the host. -/
def memcpy_int (e : Endian) (a : in_addr) : Int :=
  match e with
  | .little =>
    toInt32 (a.b0 % 256 + a.b1 % 256 * 2 ^ 8 + a.b2 % 256 * 2 ^ 16 + a.b3 % 256 * 2 ^ 24)
  | .big =>
    toInt32 (a.b0 % 256 * 2 ^ 24 + a.b1 % 256 * 2 ^ 16 + a.b2 % 256 * 2 ^ 8 + a.b3 % 256)

/-- Reversal of the four bytes of a 32-bit value. -/
def bswap32 (x : Nat) : Nat :=
  x % 256 * 2 ^ 24 + x / 2 ^ 8 % 256 * 2 ^ 16 + x / 2 ^ 16 % 256 * 2 ^ 8 + x / 2 ^ 24 % 256

/-- `htonl` on a `uint32_t`: the identity on a big-endian host, a byte swap on a
little-endian one. -/
def htonl (e : Endian) (x : Nat) : Nat :=
  match e with
  | .little => bswap32 (x % 2 ^ 32)
  | .big => x % 2 ^ 32

/-- `qdevice_net_cmap_autogenerate_node_id` (qdevice-net-cmap.c:54-90).  `getaddrinfo addr`
is the pair of the return value of `getaddrinfo(addr, NULL, &ahints, &ainfo)` and the first
entry of the list it stores in `ainfo`.  The local `ret` is an `int`; the function returns
it as `uint32_t`. -/
def qdevice_net_cmap_autogenerate_node_id (e : Endian) (getaddrinfo : String → Int × addrinfo)
    (addr : String) (clear_node_high_byte : Int) : Nat :=
  let ret := (getaddrinfo addr).1
  let ainfo := (getaddrinfo addr).2
  if ret ≠ 0 then
    toUInt32 0
  else if ainfo.ai_family ≠ AF_INET then
    toUInt32 0
  else
    let i := memcpy_int e ainfo.sin_addr
    let ret := toInt32 (htonl e (toUInt32 i))
    let ret := if clear_node_high_byte ≠ 0 then int_and ret 0x7FFFFFFF else ret
    toUInt32 ret

/-- The network-order 32-bit value of the address `a.b.c.d`, in the words of the
specification: `a*2^24 + b*2^16 + c*2^8 + d`. -/
def network_order_value (a : in_addr) : Nat :=
  a.b0 * 2 ^ 24 + a.b1 * 2 ^ 16 + a.b2 * 2 ^ 8 + a.b3

/-- An address whose four bytes are octets. -/
def in_addr.octets (a : in_addr) : Prop :=
  a.b0 < 256 ∧ a.b1 < 256 ∧ a.b2 < 256 ∧ a.b3 < 256

instance (a : in_addr) : Decidable a.octets := by
  unfold in_addr.octets; infer_instance

/-! ## Library types

The declarations below come from headers that are outside the modelled sources
(`corotypes.h`, `cmap.h`, `tlv.h`, `node-list.h`, `qdevice-net-instance.h`); only the parts
the code of `qdevice-net-cmap.c` reads or writes are represented. -/

/-- The values of `cs_error_t` the code compares against, and every other error code. -/
inductive cs_error_t where
  | CS_OK
  | CS_ERR_TRY_AGAIN
  | CS_ERR_NOT_EXIST
  | CS_ERR_OTHER (code : Nat)
deriving DecidableEq, Repr

open cs_error_t

/-- The node states of `enum tlv_node_state`. -/
inductive tlv_node_state where
  | TLV_NODE_STATE_NOT_SET
  | TLV_NODE_STATE_MEMBER
  | TLV_NODE_STATE_DEAD
  | TLV_NODE_STATE_LEAVING
deriving DecidableEq, Repr

open tlv_node_state

/-- One entry of a `struct node_list`. -/
structure node_list_entry where
  node_id : Nat
  data_center_id : Nat
  node_state : tlv_node_state
deriving DecidableEq, Repr

/-- A `struct node_list`: the entries from head to tail. -/
abbrev node_list := List node_list_entry

/-- Modelled from the spec: `node_list_init` of `node-list.c`, which is not among the
sources.  The list handed in becomes the empty sequence. -/
def node_list_init (_list : node_list) : node_list := []

/-- Modelled from the spec: `node_list_add` of `node-list.c`, which is not among the
sources.  The list is an "ordered sequence of {node-id, data-center-id, state} triples;
insertion order preserved", so the new triple goes to the end.  `calloc_ok` tells whether
the allocation of the entry succeeds; when it does not the function returns `NULL`
(`none`) and the list is as before. -/
def node_list_add (calloc_ok : Bool) (list : node_list) (node_id data_center_id : Nat)
    (node_state : tlv_node_state) : Option node_list :=
  if calloc_ok then
    some (list ++ [{ node_id := node_id, data_center_id := data_center_id,
                     node_state := node_state }])
  else
    none

/-- Modelled from the spec: `node_list_free` of `node-list.c`, which is not among the
sources.  Every entry is released and the list is empty afterwards. -/
def node_list_free (_list : node_list) : node_list := []

/-- What the cmap client API answers on one handle.  Every field is the answer of one
API function: the return code, paired with the value stored through the output pointer. -/
structure cmap_handle_t where
  /-- Return code of `cmap_context_get`. -/
  context_get : cs_error_t
  /-- Return code of `cmap_iter_init(handle, "nodelist.node.", &iter_handle)`. -/
  iter_init : cs_error_t
  /-- Key names stored by the successive calls of `cmap_iter_next` that return `CS_OK`;
  the call after the last of them returns an error code. -/
  iter_keys : List String
  /-- Answer of `cmap_get_uint8` on a key. -/
  get_uint8 : String → cs_error_t × Nat
  /-- Answer of `cmap_get_uint32` on a key. -/
  get_uint32 : String → cs_error_t × Nat
  /-- Answer of `cmap_get_string` on a key. -/
  get_string : String → cs_error_t × String

/-- The C library and the host as far as `qdevice_net_cmap_get_nodelist` depends on them. -/
structure libc where
  /-- Byte order of the host. -/
  endian : Endian
  /-- Answer of `getaddrinfo` with the hints of `qdevice_net_cmap_autogenerate_node_id`. -/
  getaddrinfo : String → Int × addrinfo
  /-- Whether the allocation inside `node_list_add` succeeds when the list already holds
  the given number of entries. -/
  calloc_ok : Nat → Bool

/-! ## Scanning a key name: `sscanf(key_name, "nodelist.node.%u.%s", &node_pos, tmp_key)` -/

/-- The white-space characters of the C locale. -/
def isspace (c : Char) : Bool :=
  c = ' ' || c = '\t' || c = '\n' || c = '\x0b' || c = '\x0c' || c = '\r'

/-- Matching of the ordinary characters of a format against the input: the rest of the
input after the literal, when every character agrees. -/
def scan_literal : List Char → List Char → Option (List Char)
  | [], input => some input
  | _ :: _, [] => none
  | c :: fmt, d :: input => if c = d then scan_literal fmt input else none

/-- Value of a run of decimal digits. -/
def digits_value (ds : List Char) : Nat :=
  ds.foldl (fun n c => 10 * n + (c.toNat - '0'.toNat)) 0

/-- The value `%u` stores in the `unsigned int` for a digit run of value `v`, negated when
`neg`: the C library converts as `strtoul` does, in an `unsigned long` of 64 bits (a value
of `2^64` or more becomes `2^64 - 1`, whatever the sign; a negated value is taken modulo
`2^64`), and stores the low 32 bits. -/
def unsigned_conversion (neg : Bool) (v : Nat) : Nat :=
  if 2 ^ 64 ≤ v then (2 ^ 64 - 1) % 2 ^ 32
  else if neg then (2 ^ 64 - v) % 2 ^ 32
  else v % 2 ^ 32

/-- The conversion `%u`: white space is skipped, then an optionally signed run of decimal
digits is read and converted by `unsigned_conversion`. -/
def scan_unsigned (input : List Char) : Option (Nat × List Char) :=
  let s := input.dropWhile isspace
  let neg := decide (s.head? = some '-')
  let s := if s.head? = some '-' ∨ s.head? = some '+' then s.tail else s
  let ds := s.takeWhile Char.isDigit
  if ds = [] then
    none
  else
    some (unsigned_conversion neg (digits_value ds), s.dropWhile Char.isDigit)

/-- The conversion `%s`: white space is skipped, then the characters up to the next white
space (or the end) are read; at least one is needed. -/
def scan_string (input : List Char) : Option (List Char × List Char) :=
  let s := input.dropWhile isspace
  let w := s.takeWhile (fun c => !isspace c)
  if w = [] then none else some (w, s.dropWhile (fun c => !isspace c))

/-- What `sscanf` leaves behind: its return value and the two output arguments.  An
output that was not assigned is shown as `0` or `""`. -/
structure sscanf_result where
  res : Int
  node_pos : Nat
  tmp_key : String
deriving DecidableEq, Repr

/-- The call `sscanf(key_name, "nodelist.node.%u.%s", &node_pos, tmp_key)`
(qdevice-net-cmap.c:118).  The return value is the number of conversions stored; the
value `EOF` that the C library returns when the input ends before the first conversion is
shown as `0` (the caller only tests `res != 2`). -/
def sscanf_nodelist_key (key_name : String) : sscanf_result :=
  match scan_literal "nodelist.node.".toList key_name.toList with
  | none => { res := 0, node_pos := 0, tmp_key := "" }
  | some s1 =>
    match scan_unsigned s1 with
    | none => { res := 0, node_pos := 0, tmp_key := "" }
    | some (node_pos, s2) =>
      match scan_literal ['.'] s2 with
      | none => { res := 1, node_pos := node_pos, tmp_key := "" }
      | some s3 =>
        match scan_string s3 with
        | none => { res := 1, node_pos := node_pos, tmp_key := "" }
        | some (w, _) => { res := 2, node_pos := node_pos, tmp_key := String.mk w }

/-! ## `qdevice_net_cmap_get_nodelist` -/

/-- What a call of `qdevice_net_cmap_get_nodelist` leaves behind. -/
structure get_nodelist_result where
  /-- The return value. -/
  ret : Int
  /-- The list behind the argument `list` on return. -/
  list : node_list
  /-- Whether `cmap_iter_init` succeeded, so that an iterator handle exists. -/
  iter_initialized : Bool
  /-- Whether `cmap_iter_finalize` has been called on the iterator handle. -/
  iter_finalized : Bool
  /-- The calls of `qdevice_net_cmap_autogenerate_node_id` made, in order: the address
  string and the flag `clear_node_high_byte` of each. -/
  autogenerated : List (String × Int)
deriving DecidableEq, Repr

/-- The name built by `snprintf(tmp_key, CMAP_KEYNAME_MAXLEN, "nodelist.node.%u.nodeid",
node_pos)`.  It has at most 31 characters, below `CMAP_KEYNAME_MAXLEN`, so it is never
cut. -/
def nodeid_key (node_pos : Nat) : String :=
  "nodelist.node." ++ toString node_pos ++ ".nodeid"

/-- The name built by `snprintf(tmp_key, CMAP_KEYNAME_MAXLEN,
"nodelist.node.%u.datacenterid", node_pos)`. -/
def datacenterid_key (node_pos : Nat) : String :=
  "nodelist.node." ++ toString node_pos ++ ".datacenterid"

/-- The flag `clear_node_high_byte` as computed in lines 134-143: `1` when
`totem.clear_node_high_bit` is read with `CS_OK` and `strcmp` with `"yes"` gives 0. -/
def clear_node_high_byte (cmap : cmap_handle_t) : Int :=
  if (cmap.get_string "totem.clear_node_high_bit").1 = CS_OK then
    if (cmap.get_string "totem.clear_node_high_bit").2 = "yes" then 1 else 0
  else
    0

/-- The value of `data_center_id` after lines 159-162. -/
def read_data_center_id (cmap : cmap_handle_t) (node_pos : Nat) : Nat :=
  if (cmap.get_uint32 (datacenterid_key node_pos)).1 ≠ CS_OK then 0
  else (cmap.get_uint32 (datacenterid_key node_pos)).2

/-- The label `iter_finalize` (lines 171-178): the iterator is finalized, the list is freed
when `ret_value` is not 0, and `ret_value` is returned. -/
def iter_finalize (ret_value : Int) (list : node_list) (calls : List (String × Int)) :
    get_nodelist_result :=
  { ret := ret_value
    list := if ret_value ≠ 0 then node_list_free list else list
    iter_initialized := true
    iter_finalized := true
    autogenerated := calls }

/-- The `while` loop of `qdevice_net_cmap_get_nodelist` (lines 117-169) followed by the
code after it.  The first argument holds the key names the remaining successful calls of
`cmap_iter_next` hand out; `list` is the list built so far and `calls` the calls of
`qdevice_net_cmap_autogenerate_node_id` made so far. -/
def nodelist_loop (sys : libc) (cmap : cmap_handle_t) :
    List String → node_list → List (String × Int) → get_nodelist_result
  | [], list, calls => iter_finalize 0 list calls
  | key_name :: rest, list, calls =>
    let sc := sscanf_nodelist_key key_name
    if sc.res ≠ 2 then
      nodelist_loop sys cmap rest list calls
    else if sc.tmp_key ≠ "ring0_addr" then
      nodelist_loop sys cmap rest list calls
    else
      let node_pos := sc.node_pos
      let cs_err := (cmap.get_uint32 (nodeid_key node_pos)).1
      if cs_err = CS_ERR_NOT_EXIST then
        let clear := clear_node_high_byte cmap
        if (cmap.get_string key_name).1 ≠ CS_OK then
          { ret := -1, list := list, iter_initialized := true, iter_finalized := false,
            autogenerated := calls }
        else
          let addr0_str := (cmap.get_string key_name).2
          let node_id :=
            qdevice_net_cmap_autogenerate_node_id sys.endian sys.getaddrinfo addr0_str clear
          match node_list_add (sys.calloc_ok list.length) list node_id
              (read_data_center_id cmap node_pos) TLV_NODE_STATE_NOT_SET with
          | none => iter_finalize (-1) list (calls ++ [(addr0_str, clear)])
          | some list1 => nodelist_loop sys cmap rest list1 (calls ++ [(addr0_str, clear)])
      else if cs_err ≠ CS_OK then
        iter_finalize (-1) list calls
      else
        let node_id := (cmap.get_uint32 (nodeid_key node_pos)).2
        match node_list_add (sys.calloc_ok list.length) list node_id
            (read_data_center_id cmap node_pos) TLV_NODE_STATE_NOT_SET with
        | none => iter_finalize (-1) list calls
        | some list1 => nodelist_loop sys cmap rest list1 calls

/-- `qdevice_net_cmap_get_nodelist` (qdevice-net-cmap.c:92-179).  The argument `list` is
the content of the caller's list before the call. -/
def qdevice_net_cmap_get_nodelist (sys : libc) (cmap : cmap_handle_t) (list : node_list) :
    get_nodelist_result :=
  let list := node_list_init list
  if cmap.iter_init ≠ CS_OK then
    { ret := -1, list := list, iter_initialized := false, iter_finalized := false,
      autogenerated := [] }
  else
    nodelist_loop sys cmap cmap.iter_keys list []

/-- A key name the loop of `qdevice_net_cmap_get_nodelist` takes for the ring0 address of
a node: the scan of line 118 stores two values and the second is `"ring0_addr"`. -/
def is_ring0_addr_key (key_name : String) : Bool :=
  decide ((sscanf_nodelist_key key_name).res = 2) &&
    decide ((sscanf_nodelist_key key_name).tmp_key = "ring0_addr")

/-- The key names of the form `nodelist.node.<unsigned>.ring0_addr`, spelled out: the
text `nodelist.node.`, a non-empty run `ds` of decimal digits that may be preceded by one
sign, a dot and the text `ring0_addr`.  White space may stand before the number (`ws1`) and
after the dot (`ws2`), and after `ring0_addr` the name either ends or goes on with a
white-space character (`rest`). -/
def ring0_addr_key_form (key_name : String) (sign ds : List Char) : Prop :=
  (sign = [] ∨ sign = ['-'] ∨ sign = ['+']) ∧ ds ≠ [] ∧ (∀ c ∈ ds, c.isDigit = true) ∧
    ∃ ws1 ws2 rest : List Char,
      (∀ c ∈ ws1, isspace c = true) ∧ (∀ c ∈ ws2, isspace c = true) ∧
      (∀ c ∈ rest.head?, isspace c = true) ∧
      key_name.toList =
        "nodelist.node.".toList ++
          (ws1 ++ (sign ++ (ds ++ '.' :: (ws2 ++ ("ring0_addr".toList ++ rest)))))

/-- The triple the configuration describes for the node whose ring0 address is stored
under `key_name`: the configured node id when `nodelist.node.<pos>.nodeid` is readable and
the autogenerated one otherwise, the configured data-center id or 0, and the state
`TLV_NODE_STATE_NOT_SET`. -/
def config_node_entry (sys : libc) (cmap : cmap_handle_t) (key_name : String) :
    node_list_entry :=
  { node_id :=
      if (cmap.get_uint32 (nodeid_key (sscanf_nodelist_key key_name).node_pos)).1 = CS_OK then
        (cmap.get_uint32 (nodeid_key (sscanf_nodelist_key key_name).node_pos)).2
      else
        qdevice_net_cmap_autogenerate_node_id sys.endian sys.getaddrinfo
          (cmap.get_string key_name).2 (clear_node_high_byte cmap)
    data_center_id :=
      if (cmap.get_uint32 (datacenterid_key (sscanf_nodelist_key key_name).node_pos)).1 = CS_OK
      then (cmap.get_uint32 (datacenterid_key (sscanf_nodelist_key key_name).node_pos)).2
      else 0
    node_state := TLV_NODE_STATE_NOT_SET }

/-! ## `qdevice_net_cmap_init` -/

/-- What a call of `qdevice_net_cmap_init` leaves behind. -/
structure cmap_init_result where
  /-- Whether the function ended in `errx(1, ...)` instead of returning. -/
  exited : Bool
  /-- The value of `res` after the loop: the result of the last call of `cmap_initialize`. -/
  res : cs_error_t
  /-- Number of calls of `cmap_initialize`. -/
  calls : Nat
  /-- Number of calls of `poll(NULL, 0, 1000)`, each a wait of one second. -/
  polls : Nat
deriving DecidableEq, Repr

/-- The loop and the test after it in `qdevice_net_cmap_init` (lines 204-211).
`cmap_initialize_result n` is the result of call number `n` (counted from 0) of the library
function, `max_try_again` the constant `QDEVICE_NET_MAX_CS_TRY_AGAIN` of `qnet-config.h`,
`no_retries` the local variable and `calls` the number of calls made so far.  The second
operand of `&&` (with its `no_retries++`) is evaluated only when the first holds. -/
def cmap_init_loop (cmap_initialize_result : Nat → cs_error_t) (max_try_again : Nat)
    (no_retries calls : Nat) : cmap_init_result :=
  let res := cmap_initialize_result calls
  if res = CS_ERR_TRY_AGAIN then
    if no_retries < max_try_again then
      cmap_init_loop cmap_initialize_result max_try_again (no_retries + 1) (calls + 1)
    else
      { exited := decide (res ≠ CS_OK), res := res, calls := calls + 1, polls := calls }
  else
    { exited := decide (res ≠ CS_OK), res := res, calls := calls + 1, polls := calls }
termination_by max_try_again - no_retries
decreasing_by omega

/-- `qdevice_net_cmap_init` (qdevice-net-cmap.c:196-212). -/
def qdevice_net_cmap_init (cmap_initialize_result : Nat → cs_error_t) (max_try_again : Nat) :
    cmap_init_result :=
  cmap_init_loop cmap_initialize_result max_try_again 0 0

/-! ## `qdevice_net_cmap_nodelist_reload_cb` -/

/-- The value types of `cmap_value_types_t`. -/
inductive cmap_value_types_t where
  | CMAP_VALUETYPE_INT8
  | CMAP_VALUETYPE_UINT8
  | CMAP_VALUETYPE_INT16
  | CMAP_VALUETYPE_UINT16
  | CMAP_VALUETYPE_INT32
  | CMAP_VALUETYPE_UINT32
  | CMAP_VALUETYPE_INT64
  | CMAP_VALUETYPE_UINT64
  | CMAP_VALUETYPE_FLOAT
  | CMAP_VALUETYPE_DOUBLE
  | CMAP_VALUETYPE_STRING
  | CMAP_VALUETYPE_BINARY
deriving DecidableEq, Repr

open cmap_value_types_t

/-- A `struct cmap_notify_value`: value type, length in bytes and the bytes behind `data`. -/
structure cmap_notify_value where
  type : cmap_value_types_t
  len : Nat
  data : List Nat
deriving DecidableEq, Repr

/-- The disconnect reason the code stores, and the other values of
`enum qdevice_net_disconnect_reason`. -/
inductive qdevice_net_disconnect_reason where
  | QDEVICE_NET_DISCONNECT_REASON_UNDEFINED
  | QDEVICE_NET_DISCONNECT_REASON_CANT_ALLOCATE_MSG_BUFFER
  | QDEVICE_NET_DISCONNECT_REASON_OTHER (code : Nat)
deriving DecidableEq, Repr

open qdevice_net_disconnect_reason

/-- The fields of `struct qdevice_net_instance` the callback reads or writes. -/
structure qdevice_net_instance where
  cmap_reload_in_progress : Int
  schedule_disconnect : Int
  disconnect_reason : qdevice_net_disconnect_reason
deriving DecidableEq, Repr

/-- What a call of `qdevice_net_cmap_nodelist_reload_cb` leaves behind. -/
structure reload_cb_result where
  /-- The status given to `exit` when the callback ended the process, `none` when it
  returned to its caller. -/
  exit_status : Option Int
  /-- The instance on return (or at the call of `exit`). -/
  inst : qdevice_net_instance
  /-- Number of calls of `qdevice_net_send_config_node_list`. -/
  sends : Nat
deriving DecidableEq, Repr

/-- The name of the key that announces a reload of the configuration. -/
def reload_key : String := "config.totemconfig_reload_in_progress"

/-- The test `memcmp(new_value.data, &reload, sizeof(reload)) == 0` with `reload = 1`: the
first byte behind `data` is 1. -/
def memcmp_reload (new_value : cmap_notify_value) : Bool :=
  new_value.data.take 1 = [1]

/-- `qdevice_net_cmap_nodelist_reload_cb` (qdevice-net-cmap.c:232-280).  `send_result` is
the value `qdevice_net_send_config_node_list(instance, 0, 0)` returns when it is called;
that function (of `qdevice-net-send.c`, outside the modelled sources) is taken to leave the
three fields of `qdevice_net_instance` shown here as they are.  `inst` is the instance
`cmap_context_get` stores. -/
def qdevice_net_cmap_nodelist_reload_cb (cmap_handle : cmap_handle_t) (send_result : Int)
    (key_name : String) (new_value : cmap_notify_value) (inst : qdevice_net_instance) :
    reload_cb_result :=
  if cmap_handle.context_get ≠ CS_OK then
    { exit_status := some 1, inst := inst, sends := 0 }
  else
    let reload_event := key_name = reload_key ∧ new_value.type = CMAP_VALUETYPE_UINT8 ∧
      new_value.len = 1
    if reload_event ∧ memcmp_reload new_value = true then
      { exit_status := none, inst := { inst with cmap_reload_in_progress := 1 }, sends := 0 }
    else
      let inst := if reload_event then { inst with cmap_reload_in_progress := 0 } else inst
      if inst.cmap_reload_in_progress ≠ 0 then
        { exit_status := none, inst := inst, sends := 0 }
      else if (cmap_handle.get_uint8 reload_key).1 = CS_OK ∧
          (cmap_handle.get_uint8 reload_key).2 = 1 then
        { exit_status := none, inst := inst, sends := 0 }
      else if send_result ≠ 0 then
        { exit_status := none
          inst := { inst with
            disconnect_reason := QDEVICE_NET_DISCONNECT_REASON_CANT_ALLOCATE_MSG_BUFFER
            schedule_disconnect := 1 }
          sends := 1 }
      else
        { exit_status := none, inst := inst, sends := 1 }

/-- The event "`config.totemconfig_reload_in_progress` set to the `uint8` value 1". -/
def reload_started (key_name : String) (new_value : cmap_notify_value) : Prop :=
  (key_name = reload_key ∧ new_value.type = CMAP_VALUETYPE_UINT8 ∧ new_value.len = 1) ∧
    new_value.data.take 1 = [1]

/-- The event "`config.totemconfig_reload_in_progress` set to a `uint8` value other than
1". -/
def reload_finished (key_name : String) (new_value : cmap_notify_value) : Prop :=
  (key_name = reload_key ∧ new_value.type = CMAP_VALUETYPE_UINT8 ∧ new_value.len = 1) ∧
    new_value.data.take 1 ≠ [1]

/-- The map reports a reload in progress: `cmap_get_uint8` on the reload key gives `CS_OK`
and the value 1. -/
def map_reports_reload (cmap_handle : cmap_handle_t) : Prop :=
  (cmap_handle.get_uint8 reload_key).1 = CS_OK ∧ (cmap_handle.get_uint8 reload_key).2 = 1

/-- The condition on the inputs of the callback under which it reaches the call of
`qdevice_net_send_config_node_list` (line 273): the context is obtained, the event is not
the start of a reload, the flag `cmap_reload_in_progress` is 0 once the event has been
taken in (it was 0, or the event is the end of a reload), and the map does not report a
reload. -/
def send_attempted (cmap_handle : cmap_handle_t) (key_name : String)
    (new_value : cmap_notify_value) (inst : qdevice_net_instance) : Prop :=
  cmap_handle.context_get = CS_OK ∧ ¬ reload_started key_name new_value ∧
    (reload_finished key_name new_value ∨ inst.cmap_reload_in_progress = 0) ∧
    ¬ map_reports_reload cmap_handle

instance (key_name : String) (new_value : cmap_notify_value) :
    Decidable (reload_started key_name new_value) := by
  unfold reload_started; infer_instance

instance (key_name : String) (new_value : cmap_notify_value) :
    Decidable (reload_finished key_name new_value) := by
  unfold reload_finished; infer_instance

instance (cmap_handle : cmap_handle_t) : Decidable (map_reports_reload cmap_handle) := by
  unfold map_reports_reload; infer_instance

instance (cmap_handle : cmap_handle_t) (key_name : String) (new_value : cmap_notify_value)
    (inst : qdevice_net_instance) :
    Decidable (send_attempted cmap_handle key_name new_value inst) := by
  unfold send_attempted; infer_instance

/-! ## A sample configuration

A two-node configuration used to evaluate the functions: node 0 has a configured node id
and no data-center id, node 1 has a data-center id and no node id, and the high bit of
autogenerated ids is cleared. -/

/-- The cmap content of the sample configuration. -/
def sample_cmap : cmap_handle_t :=
  { context_get := CS_OK
    iter_init := CS_OK
    iter_keys := ["nodelist.node.0.ring0_addr", "nodelist.node.0.nodeid",
                  "nodelist.node.1.ring0_addr", "nodelist.node.1.datacenterid"]
    get_uint8 := fun _ => (CS_ERR_NOT_EXIST, 0)
    get_uint32 := fun k =>
      if k = "nodelist.node.0.nodeid" then (CS_OK, 5)
      else if k = "nodelist.node.1.datacenterid" then (CS_OK, 2)
      else (CS_ERR_NOT_EXIST, 0)
    get_string := fun k =>
      if k = "nodelist.node.0.ring0_addr" then (CS_OK, "10.0.0.1")
      else if k = "nodelist.node.1.ring0_addr" then (CS_OK, "192.168.1.10")
      else if k = "totem.clear_node_high_bit" then (CS_OK, "yes")
      else (CS_ERR_NOT_EXIST, "") }

/-- A little-endian host that resolves the two addresses of the sample configuration and
never runs out of memory. -/
def sample_libc : libc :=
  { endian := Endian.little
    getaddrinfo := fun a =>
      if a = "10.0.0.1" then
        (0, { ai_family := AF_INET, sin_addr := { b0 := 10, b1 := 0, b2 := 0, b3 := 1 } })
      else if a = "192.168.1.10" then
        (0, { ai_family := AF_INET, sin_addr := { b0 := 192, b1 := 168, b2 := 1, b3 := 10 } })
      else
        (-2, { ai_family := 0, sin_addr := { b0 := 0, b1 := 0, b2 := 0, b3 := 0 } })
    calloc_ok := fun _ => true }

/-- A configuration in which node 0 has a configured node id, node 1 has none, and the
read of the ring0 address of node 1 fails with `CS_ERR_TRY_AGAIN`. -/
def address_read_fails_cmap : cmap_handle_t :=
  { context_get := CS_OK
    iter_init := CS_OK
    iter_keys := ["nodelist.node.0.ring0_addr", "nodelist.node.1.ring0_addr"]
    get_uint8 := fun _ => (CS_ERR_NOT_EXIST, 0)
    get_uint32 := fun k =>
      if k = "nodelist.node.0.nodeid" then (CS_OK, 5) else (CS_ERR_NOT_EXIST, 0)
    get_string := fun k =>
      if k = "nodelist.node.0.ring0_addr" then (CS_OK, "10.0.0.1")
      else if k = "nodelist.node.1.ring0_addr" then (CS_ERR_TRY_AGAIN, "")
      else (CS_ERR_NOT_EXIST, "") }

/-- A configuration whose only node has no node id and a ring0 address that the sample
host does not resolve. -/
def unresolvable_cmap : cmap_handle_t :=
  { context_get := CS_OK
    iter_init := CS_OK
    iter_keys := ["nodelist.node.0.ring0_addr"]
    get_uint8 := fun _ => (CS_ERR_NOT_EXIST, 0)
    get_uint32 := fun _ => (CS_ERR_NOT_EXIST, 0)
    get_string := fun k =>
      if k = "nodelist.node.0.ring0_addr" then (CS_OK, "node-a.invalid")
      else (CS_ERR_NOT_EXIST, "") }

/-- A configuration in which every lookup succeeds or reports the key missing: node 0 has
a configured node id, node 1 has none, and the read of the key
`nodelist.node.1.ring0_addr` that the iterator hands out reports the key missing. -/
def missing_address_cmap : cmap_handle_t :=
  { context_get := CS_OK
    iter_init := CS_OK
    iter_keys := ["nodelist.node.0.ring0_addr", "nodelist.node.1.ring0_addr"]
    get_uint8 := fun _ => (CS_ERR_NOT_EXIST, 0)
    get_uint32 := fun k =>
      if k = "nodelist.node.0.nodeid" then (CS_OK, 5) else (CS_ERR_NOT_EXIST, 0)
    get_string := fun k =>
      if k = "nodelist.node.0.ring0_addr" then (CS_OK, "10.0.0.1")
      else (CS_ERR_NOT_EXIST, "") }

/-- A configuration whose only key is `nodelist.node.-1.ring0_addr`; a node id is stored
under `nodelist.node.4294967295.nodeid`. -/
def signed_key_cmap : cmap_handle_t :=
  { context_get := CS_OK
    iter_init := CS_OK
    iter_keys := ["nodelist.node.-1.ring0_addr"]
    get_uint8 := fun _ => (CS_ERR_NOT_EXIST, 0)
    get_uint32 := fun k =>
      if k = "nodelist.node.4294967295.nodeid" then (CS_OK, 7) else (CS_ERR_NOT_EXIST, 0)
    get_string := fun k =>
      if k = "nodelist.node.-1.ring0_addr" then (CS_OK, "10.0.0.1")
      else (CS_ERR_NOT_EXIST, "") }

/-! ## Lemmas on the integer conversions -/

theorem toUInt32_toInt32 (x : Nat) : toUInt32 (toInt32 x) = x % 2 ^ 32 := by
  unfold toUInt32 toInt32
  split <;> omega

theorem network_order_value_lt (a : in_addr) (h : a.octets) :
    network_order_value a < 2 ^ 32 := by
  obtain ⟨h0, h1, h2, h3⟩ := h
  unfold network_order_value
  omega

theorem htonl_memcpy_int (e : Endian) (a : in_addr) (h : a.octets) :
    htonl e (toUInt32 (memcpy_int e a)) = network_order_value a := by
  obtain ⟨h0, h1, h2, h3⟩ := h
  cases e
  · simp only [htonl, memcpy_int, toUInt32_toInt32, bswap32, network_order_value]
    omega
  · simp only [htonl, memcpy_int, toUInt32_toInt32, network_order_value]
    omega

theorem toUInt32_mask (x : Nat) : toUInt32 (0x7FFFFFFF : Int) = 2 ^ 31 - 1 ∧
    toUInt32 (int_and (toInt32 x) 0x7FFFFFFF) = x % 2 ^ 31 := by
  have hm : toUInt32 (0x7FFFFFFF : Int) = 2 ^ 31 - 1 := by
    unfold toUInt32
    omega
  refine ⟨hm, ?_⟩
  unfold int_and
  rw [toUInt32_toInt32, toUInt32_toInt32, hm, Nat.and_pow_two_sub_one_eq_mod]
  omega

/-- The value `qdevice_net_cmap_autogenerate_node_id` returns for an address that
resolves to the IPv4 address `a`. -/
theorem autogenerate_resolved (e : Endian) (getaddrinfo : String → Int × addrinfo)
    (addr : String) (a : in_addr) (clear : Int) (ha : a.octets)
    (hres : getaddrinfo addr = (0, { ai_family := AF_INET, sin_addr := a })) :
    qdevice_net_cmap_autogenerate_node_id e getaddrinfo addr clear =
      if clear ≠ 0 then network_order_value a % 2 ^ 31 else network_order_value a := by
  have hlt := network_order_value_lt a ha
  unfold qdevice_net_cmap_autogenerate_node_id
  simp only [hres, ne_eq, not_true_eq_false, if_false, htonl_memcpy_int e a ha]
  split
  · exact (toUInt32_mask _).2
  · rw [toUInt32_toInt32]
    omega

/-! ## The autogenerated node id -/

/-- C1: for every IPv4 address `a.b.c.d` (octets 0..255) the ring0 address resolves to,
`qdevice_net_cmap_autogenerate_node_id` called with `clear_node_high_byte = 0` returns
exactly `a*2^24 + b*2^16 + c*2^8 + d`, a 32-bit value, and the result on a little-endian
host equals the result on a big-endian host. -/
theorem autogenerate_node_id_network_order (e : Endian)
    (getaddrinfo : String → Int × addrinfo) (addr : String) (a b c d : Nat)
    (ha : a < 256) (hb : b < 256) (hc : c < 256) (hd : d < 256)
    (hres : getaddrinfo addr =
      (0, { ai_family := AF_INET, sin_addr := { b0 := a, b1 := b, b2 := c, b3 := d } })) :
    qdevice_net_cmap_autogenerate_node_id e getaddrinfo addr 0 =
        a * 2 ^ 24 + b * 2 ^ 16 + c * 2 ^ 8 + d ∧
      qdevice_net_cmap_autogenerate_node_id e getaddrinfo addr 0 < 2 ^ 32 ∧
      qdevice_net_cmap_autogenerate_node_id Endian.little getaddrinfo addr 0 =
        qdevice_net_cmap_autogenerate_node_id Endian.big getaddrinfo addr 0 := by
  have hoct : in_addr.octets { b0 := a, b1 := b, b2 := c, b3 := d } := ⟨ha, hb, hc, hd⟩
  have key : ∀ e1 : Endian, qdevice_net_cmap_autogenerate_node_id e1 getaddrinfo addr 0 =
      a * 2 ^ 24 + b * 2 ^ 16 + c * 2 ^ 8 + d := by
    intro e1
    rw [autogenerate_resolved e1 getaddrinfo addr _ 0 hoct hres]
    simp [network_order_value]
  refine ⟨key e, ?_, ?_⟩
  · rw [key e]
    omega
  · rw [key Endian.little, key Endian.big]

/-- Witness of C1: the address 192.168.1.10 on a little-endian host. -/
theorem autogenerate_node_id_network_order_witness :
    qdevice_net_cmap_autogenerate_node_id Endian.little
        (fun _ => (0, { ai_family := AF_INET,
                        sin_addr := { b0 := 192, b1 := 168, b2 := 1, b3 := 10 } }))
        "192.168.1.10" 0 = 192 * 2 ^ 24 + 168 * 2 ^ 16 + 1 * 2 ^ 8 + 10 :=
  (autogenerate_node_id_network_order Endian.little
    (fun _ => (0, { ai_family := AF_INET,
                    sin_addr := { b0 := 192, b1 := 168, b2 := 1, b3 := 10 } }))
    "192.168.1.10" 192 168 1 10 (by decide) (by decide) (by decide) (by decide) rfl).1

/-- C2: for every resolved IPv4 address with network-order value `v`, a call with a
non-zero `clear_node_high_byte` returns `v` with only bit 31 cleared: the result is
`v mod 2^31`, it is below `2^31`, bit 31 is off, every bit below 31 is the bit of `v`
(so the low seven bits of the most significant byte are kept); with the flag 0 the result
is `v`. -/
theorem autogenerate_node_id_clear_high_bit (e : Endian)
    (getaddrinfo : String → Int × addrinfo) (addr : String) (a : in_addr) (clear : Int)
    (ha : a.octets)
    (hres : getaddrinfo addr = (0, { ai_family := AF_INET, sin_addr := a })) :
    (clear ≠ 0 →
      qdevice_net_cmap_autogenerate_node_id e getaddrinfo addr clear =
          network_order_value a % 2 ^ 31 ∧
        qdevice_net_cmap_autogenerate_node_id e getaddrinfo addr clear < 2 ^ 31 ∧
        (qdevice_net_cmap_autogenerate_node_id e getaddrinfo addr clear).testBit 31 = false ∧
        (∀ k, k < 31 →
          (qdevice_net_cmap_autogenerate_node_id e getaddrinfo addr clear).testBit k =
            (network_order_value a).testBit k) ∧
        qdevice_net_cmap_autogenerate_node_id e getaddrinfo addr clear / 2 ^ 24 =
          a.b0 % 128 ∧
        qdevice_net_cmap_autogenerate_node_id e getaddrinfo addr clear % 2 ^ 24 =
          network_order_value a % 2 ^ 24) ∧
    (clear = 0 →
      qdevice_net_cmap_autogenerate_node_id e getaddrinfo addr clear =
        network_order_value a) := by
  have hv := autogenerate_resolved e getaddrinfo addr a clear ha hres
  constructor
  · intro hc
    rw [hv, if_pos hc]
    have hlt : network_order_value a % 2 ^ 31 < 2 ^ 31 := Nat.mod_lt _ (by norm_num)
    refine ⟨rfl, hlt, ?_, ?_, ?_, ?_⟩
    · exact Nat.testBit_lt_two_pow hlt
    · intro k hk
      rw [Nat.testBit_mod_two_pow]
      simp [hk]
    · obtain ⟨h0, h1, h2, h3⟩ := ha
      unfold network_order_value
      omega
    · omega
  · intro hc
    rw [hv, hc]
    simp

/-- Witness of C2: the address 192.168.1.10 with the flag set gives 64.168.1.10. -/
theorem autogenerate_node_id_clear_high_bit_witness :
    qdevice_net_cmap_autogenerate_node_id Endian.big
        (fun _ => (0, { ai_family := AF_INET,
                        sin_addr := { b0 := 192, b1 := 168, b2 := 1, b3 := 10 } }))
        "192.168.1.10" 1 =
      network_order_value { b0 := 192, b1 := 168, b2 := 1, b3 := 10 } % 2 ^ 31 :=
  ((autogenerate_node_id_clear_high_bit Endian.big
    (fun _ => (0, { ai_family := AF_INET,
                    sin_addr := { b0 := 192, b1 := 168, b2 := 1, b3 := 10 } }))
    "192.168.1.10" { b0 := 192, b1 := 168, b2 := 1, b3 := 10 } 1
    (by decide) rfl).1 (by decide)).1

/-! ## One iteration of the loop of `qdevice_net_cmap_get_nodelist` -/

theorem nodelist_loop_skip (sys : libc) (cmap : cmap_handle_t) (key_name : String)
    (rest : List String) (list : node_list) (calls : List (String × Int))
    (h : is_ring0_addr_key key_name = false) :
    nodelist_loop sys cmap (key_name :: rest) list calls =
      nodelist_loop sys cmap rest list calls := by
  unfold is_ring0_addr_key at h
  rw [nodelist_loop]
  by_cases h1 : (sscanf_nodelist_key key_name).res = 2
  · have h2 : (sscanf_nodelist_key key_name).tmp_key ≠ "ring0_addr" := by
      simpa [h1] using h
    simp [h1, h2]
  · simp [h1]

theorem is_ring0_addr_key_iff (key_name : String) :
    is_ring0_addr_key key_name = true ↔
      (sscanf_nodelist_key key_name).res = 2 ∧
        (sscanf_nodelist_key key_name).tmp_key = "ring0_addr" := by
  simp [is_ring0_addr_key]

theorem nodelist_loop_configured (sys : libc) (cmap : cmap_handle_t) (key_name : String)
    (rest : List String) (list : node_list) (calls : List (String × Int))
    (hkey : is_ring0_addr_key key_name = true)
    (hid : (cmap.get_uint32 (nodeid_key (sscanf_nodelist_key key_name).node_pos)).1 = CS_OK)
    (hadd : sys.calloc_ok list.length = true) :
    nodelist_loop sys cmap (key_name :: rest) list calls =
      nodelist_loop sys cmap rest
        (list ++ [{ node_id :=
                      (cmap.get_uint32 (nodeid_key (sscanf_nodelist_key key_name).node_pos)).2
                    data_center_id :=
                      read_data_center_id cmap (sscanf_nodelist_key key_name).node_pos
                    node_state := TLV_NODE_STATE_NOT_SET }]) calls := by
  obtain ⟨h1, h2⟩ := (is_ring0_addr_key_iff key_name).1 hkey
  rw [nodelist_loop]
  simp [h1, h2, hid, hadd, node_list_add]

theorem nodelist_loop_autogenerated (sys : libc) (cmap : cmap_handle_t) (key_name : String)
    (rest : List String) (list : node_list) (calls : List (String × Int))
    (hkey : is_ring0_addr_key key_name = true)
    (hid : (cmap.get_uint32 (nodeid_key (sscanf_nodelist_key key_name).node_pos)).1 =
      CS_ERR_NOT_EXIST)
    (hstr : (cmap.get_string key_name).1 = CS_OK)
    (hadd : sys.calloc_ok list.length = true) :
    nodelist_loop sys cmap (key_name :: rest) list calls =
      nodelist_loop sys cmap rest
        (list ++ [{ node_id :=
                      qdevice_net_cmap_autogenerate_node_id sys.endian sys.getaddrinfo
                        (cmap.get_string key_name).2 (clear_node_high_byte cmap)
                    data_center_id :=
                      read_data_center_id cmap (sscanf_nodelist_key key_name).node_pos
                    node_state := TLV_NODE_STATE_NOT_SET }])
        (calls ++ [((cmap.get_string key_name).2, clear_node_high_byte cmap)]) := by
  obtain ⟨h1, h2⟩ := (is_ring0_addr_key_iff key_name).1 hkey
  rw [nodelist_loop]
  simp [h1, h2, hid, hstr, hadd, node_list_add]

theorem nodelist_loop_addr_error (sys : libc) (cmap : cmap_handle_t) (key_name : String)
    (rest : List String) (list : node_list) (calls : List (String × Int))
    (hkey : is_ring0_addr_key key_name = true)
    (hid : (cmap.get_uint32 (nodeid_key (sscanf_nodelist_key key_name).node_pos)).1 =
      CS_ERR_NOT_EXIST)
    (hstr : (cmap.get_string key_name).1 ≠ CS_OK) :
    nodelist_loop sys cmap (key_name :: rest) list calls =
      { ret := -1, list := list, iter_initialized := true, iter_finalized := false,
        autogenerated := calls } := by
  obtain ⟨h3, h4⟩ := (is_ring0_addr_key_iff key_name).1 hkey
  rw [nodelist_loop]
  simp [h3, h4, hid, hstr]

theorem scan_literal_append (fmt rest : List Char) :
    scan_literal fmt (fmt ++ rest) = some rest := by
  induction fmt with
  | nil => cases rest <;> rfl
  | cons c fmt ih => simp [scan_literal, ih]

theorem scan_literal_some (fmt input rest : List Char)
    (h : scan_literal fmt input = some rest) : input = fmt ++ rest := by
  induction fmt generalizing input with
  | nil =>
    cases input <;> simp_all [scan_literal]
  | cons c fmt ih =>
    cases input with
    | nil => simp [scan_literal] at h
    | cons d input =>
      by_cases hcd : c = d
      · simp only [scan_literal, hcd, if_true] at h
        rw [hcd, ih input h]
        rfl
      · simp [scan_literal, hcd] at h

theorem ne_of_isDigit (c d : Char) (h : c.isDigit = true) (hd : d.isDigit = false) :
    c ≠ d := by
  intro hcd
  rw [hcd, hd] at h
  exact Bool.noConfusion h

theorem isspace_of_isDigit (c : Char) (h : c.isDigit = true) : isspace c = false := by
  simp [isspace, ne_of_isDigit c ' ' h (by decide), ne_of_isDigit c '\t' h (by decide),
    ne_of_isDigit c '\n' h (by decide), ne_of_isDigit c '\x0b' h (by decide),
    ne_of_isDigit c '\x0c' h (by decide), ne_of_isDigit c '\r' h (by decide)]

/-- A run whose members all satisfy `p`, followed by a list that is empty or starts with
a character failing `p`, is split by `takeWhile` and `dropWhile` at the seam. -/
theorem takeWhile_dropWhile_seam (p : Char → Bool) (l rest : List Char)
    (hl : ∀ c ∈ l, p c = true) (hr : ∀ c ∈ rest.head?, p c = false) :
    (l ++ rest).takeWhile p = l ∧ (l ++ rest).dropWhile p = rest := by
  induction l with
  | nil =>
    cases rest with
    | nil => simp
    | cons c t =>
      have hc : p c = false := hr c (by simp)
      simp [List.takeWhile, List.dropWhile, hc]
  | cons c l ih =>
    have hc : p c = true := hl c (List.mem_cons_self _ _)
    have ih1 := ih (fun x hx => hl x (List.mem_cons_of_mem _ hx))
    simp [List.takeWhile, List.dropWhile, hc, ih1]

/-- What `dropWhile p` leaves is empty or starts with a character failing `p`. -/
theorem head_dropWhile (p : Char → Bool) (l : List Char) :
    ∀ c ∈ (l.dropWhile p).head?, p c = false := by
  induction l with
  | nil => simp
  | cons d l ih =>
    by_cases hd : p d = true
    · simpa [List.dropWhile, hd] using ih
    · simp [List.dropWhile, hd]

theorem scan_unsigned_skip (ws input : List Char) (hws : ∀ c ∈ ws, isspace c = true) :
    scan_unsigned (ws ++ input) = scan_unsigned input := by
  have h : (ws ++ input).dropWhile isspace = input.dropWhile isspace := by
    induction ws with
    | nil => rfl
    | cons c ws ih =>
      have hc : isspace c = true := hws c (List.mem_cons_self _ _)
      simp [List.dropWhile, hc, ih (fun x hx => hws x (List.mem_cons_of_mem _ hx))]
  simp only [scan_unsigned, h]

theorem scan_string_skip (ws input : List Char) (hws : ∀ c ∈ ws, isspace c = true) :
    scan_string (ws ++ input) = scan_string input := by
  have h : (ws ++ input).dropWhile isspace = input.dropWhile isspace := by
    induction ws with
    | nil => rfl
    | cons c ws ih =>
      have hc : isspace c = true := hws c (List.mem_cons_self _ _)
      simp [List.dropWhile, hc, ih (fun x hx => hws x (List.mem_cons_of_mem _ hx))]
  simp only [scan_string, h]

theorem scan_unsigned_digits (sign ds rest : List Char)
    (hsign : sign = [] ∨ sign = ['-'] ∨ sign = ['+']) (hne : ds ≠ [])
    (hd : ∀ c ∈ ds, c.isDigit = true) :
    scan_unsigned (sign ++ (ds ++ '.' :: rest)) =
      some (unsigned_conversion (decide (sign = ['-'])) (digits_value ds), '.' :: rest) := by
  obtain ⟨c, ds1, rfl⟩ := List.exists_cons_of_ne_nil hne
  have hc : c.isDigit = true := hd c (List.mem_cons_self _ _)
  have hsp := isspace_of_isDigit c hc
  have hm := ne_of_isDigit c '-' hc (by decide)
  have hp := ne_of_isDigit c '+' hc (by decide)
  have htd := takeWhile_dropWhile_seam Char.isDigit (c :: ds1) ('.' :: rest) hd
    (by simp)
  have hminus : isspace '-' = false := by decide
  have hplus : isspace '+' = false := by decide
  unfold scan_unsigned
  rcases hsign with h | h | h
  · subst h
    have h1 : ([] ++ ((c :: ds1) ++ '.' :: rest)).dropWhile isspace =
        (c :: ds1) ++ '.' :: rest := by
      simp [List.dropWhile, hsp]
    simp only [h1]
    have h2 : ((c :: ds1) ++ '.' :: rest).head? = some c := rfl
    simp only [h2, Option.some.injEq, hm, hp, or_self, if_false, htd.1, htd.2]
    simp
  · subst h
    have h1 : (['-'] ++ ((c :: ds1) ++ '.' :: rest)).dropWhile isspace =
        '-' :: ((c :: ds1) ++ '.' :: rest) := by
      simp [List.dropWhile, hminus]
    simp only [h1, List.head?_cons, true_or, if_true, List.tail_cons, htd.1, htd.2]
    simp
  · subst h
    have h1 : (['+'] ++ ((c :: ds1) ++ '.' :: rest)).dropWhile isspace =
        '+' :: ((c :: ds1) ++ '.' :: rest) := by
      simp [List.dropWhile, hplus]
    simp only [h1, List.head?_cons, or_true, if_true, List.tail_cons, htd.1, htd.2]
    simp

theorem scan_string_ring0 (rest : List Char) (hr : ∀ c ∈ rest.head?, isspace c = true) :
    scan_string ("ring0_addr".toList ++ rest) = some ("ring0_addr".toList, rest) := by
  have hlit : ∀ c ∈ "ring0_addr".toList, (fun c => !isspace c) c = true := by decide
  have hseam := takeWhile_dropWhile_seam (fun c => !isspace c) "ring0_addr".toList rest hlit
    (by intro c hc; simp [hr c hc])
  have hdrop : ("ring0_addr".toList ++ rest).dropWhile isspace = "ring0_addr".toList ++ rest := by
    have hrr : isspace 'r' = false := by decide
    show ('r' :: _).dropWhile isspace = _
    simp [List.dropWhile, hrr]
  simp only [scan_string, hdrop, hseam.1, hseam.2]
  rfl

theorem sscanf_nodelist_key_of_form (key_name : String) (sign ds : List Char)
    (h : ring0_addr_key_form key_name sign ds) :
    sscanf_nodelist_key key_name =
      { res := 2
        node_pos := unsigned_conversion (decide (sign = ['-'])) (digits_value ds)
        tmp_key := "ring0_addr" } := by
  obtain ⟨hsign, hne, hd, ws1, ws2, rest, h1, h2, h3, hk⟩ := h
  have h4 : ∀ t, scan_literal ['.'] ('.' :: t) = some t := by
    intro t
    simp [scan_literal]
  unfold sscanf_nodelist_key
  rw [hk, scan_literal_append]
  simp only [scan_unsigned_skip ws1 _ h1, scan_unsigned_digits sign ds _ hsign hne hd, h4,
    scan_string_skip ws2 _ h2, scan_string_ring0 rest h3]
  rfl

theorem scan_unsigned_shape (s1 s2 : List Char) (p : Nat)
    (h : scan_unsigned s1 = some (p, s2)) :
    ∃ ws1 sign ds, (∀ c ∈ ws1, isspace c = true) ∧
      (sign = [] ∨ sign = ['-'] ∨ sign = ['+']) ∧ ds ≠ [] ∧
      (∀ c ∈ ds, c.isDigit = true) ∧ s1 = ws1 ++ (sign ++ (ds ++ s2)) := by
  have hsplit : s1 = s1.takeWhile isspace ++ s1.dropWhile isspace :=
    (List.takeWhile_append_dropWhile _ _).symm
  have hws : ∀ c ∈ s1.takeWhile isspace, isspace c = true :=
    fun c hc => List.mem_takeWhile_imp hc
  unfold scan_unsigned at h
  generalize s1.dropWhile isspace = x at h hsplit
  generalize s1.takeWhile isspace = ws1 at hsplit hws
  simp only [] at h
  have key : ∀ s : List Char, (if s.takeWhile Char.isDigit = [] then none
      else some (unsigned_conversion (decide (x.head? = some '-'))
          (digits_value (s.takeWhile Char.isDigit)),
        s.dropWhile Char.isDigit)) = some (p, s2) →
      ∃ ds, ds ≠ [] ∧ (∀ c ∈ ds, c.isDigit = true) ∧ s = ds ++ s2 := by
    intro s hs
    by_cases hds : s.takeWhile Char.isDigit = []
    · simp [hds] at hs
    · simp only [hds, if_false, Option.some.injEq, Prod.mk.injEq] at hs
      refine ⟨s.takeWhile Char.isDigit, hds, fun c hc => (List.mem_takeWhile_imp hc), ?_⟩
      rw [← hs.2, List.takeWhile_append_dropWhile]
  by_cases hsign : x.head? = some '-' ∨ x.head? = some '+'
  · simp only [hsign, if_true] at h
    obtain ⟨ds, h1, h2, h3⟩ := key x.tail h
    cases x with
    | nil => simp at hsign
    | cons c t =>
      simp only [List.head?_cons, Option.some.injEq] at hsign
      simp only [List.tail_cons] at h3
      rcases hsign with hc | hc
      · exact ⟨_, ['-'], ds, hws, Or.inr (Or.inl rfl), h1, h2, by rw [hsplit, hc, h3]; simp⟩
      · exact ⟨_, ['+'], ds, hws, Or.inr (Or.inr rfl), h1, h2, by rw [hsplit, hc, h3]; simp⟩
  · simp only [hsign, if_false] at h
    obtain ⟨ds, h1, h2, h3⟩ := key x h
    exact ⟨_, [], ds, hws, Or.inl rfl, h1, h2, by rw [hsplit, h3]; simp⟩

theorem scan_string_shape (s3 w r : List Char) (h : scan_string s3 = some (w, r)) :
    ∃ ws2, (∀ c ∈ ws2, isspace c = true) ∧ (∀ c ∈ r.head?, isspace c = true) ∧
      s3 = ws2 ++ (w ++ r) := by
  have hsplit : s3 = s3.takeWhile isspace ++ s3.dropWhile isspace :=
    (List.takeWhile_append_dropWhile _ _).symm
  have hws : ∀ c ∈ s3.takeWhile isspace, isspace c = true :=
    fun c hc => List.mem_takeWhile_imp hc
  unfold scan_string at h
  generalize s3.dropWhile isspace = y at h hsplit
  generalize s3.takeWhile isspace = ws2 at hsplit hws
  simp only [] at h
  by_cases hw : y.takeWhile (fun c => !isspace c) = []
  · simp [hw] at h
  · simp only [hw, if_false, Option.some.injEq, Prod.mk.injEq] at h
    refine ⟨_, hws, ?_, ?_⟩
    · intro c hc
      rw [← h.2] at hc
      simpa using head_dropWhile (fun c => !isspace c) y c hc
    · rw [hsplit, ← h.1, ← h.2, List.takeWhile_append_dropWhile]

theorem ring0_addr_key_shape (key_name : String)
    (h : is_ring0_addr_key key_name = true) :
    ∃ sign ds, ring0_addr_key_form key_name sign ds := by
  obtain ⟨hres, hkey⟩ := (is_ring0_addr_key_iff key_name).1 h
  unfold sscanf_nodelist_key at hres hkey
  cases h1 : scan_literal "nodelist.node.".toList key_name.toList with
  | none =>
    rw [h1] at hres
    simp at hres
  | some s1 =>
    rw [h1] at hres hkey
    simp only [] at hres hkey
    have e1 := scan_literal_some _ _ _ h1
    cases h2 : scan_unsigned s1 with
    | none =>
      rw [h2] at hres
      simp at hres
    | some r2 =>
      obtain ⟨p, s2⟩ := r2
      rw [h2] at hres hkey
      simp only [] at hres hkey
      obtain ⟨ws1, sign, ds, hws1, hsign, hne, hd, e2⟩ := scan_unsigned_shape s1 s2 p h2
      cases h3 : scan_literal ['.'] s2 with
      | none =>
        rw [h3] at hres
        simp at hres
      | some s3 =>
        rw [h3] at hres hkey
        simp only [] at hres hkey
        have e3 := scan_literal_some _ _ _ h3
        cases h4 : scan_string s3 with
        | none =>
          rw [h4] at hres
          simp at hres
        | some r4 =>
          obtain ⟨w, r⟩ := r4
          rw [h4] at hkey
          simp only [] at hkey
          obtain ⟨ws2, hws2, hr, e4⟩ := scan_string_shape s3 w r h4
          have e5 : w = "ring0_addr".toList := by
            have := congrArg String.toList hkey
            simpa using this
          refine ⟨sign, ds, hsign, hne, hd, ws1, ws2, r, hws1, hws2, hr, ?_⟩
          rw [e1, e2, e3, e4, e5]
          rfl

/-- The scan of line 118 takes a key name for the ring0 address of a node exactly when
the name has the form `nodelist.node.<unsigned>.ring0_addr`. -/
theorem is_ring0_addr_key_iff_form (key_name : String) :
    is_ring0_addr_key key_name = true ↔ ∃ sign ds, ring0_addr_key_form key_name sign ds := by
  constructor
  · exact ring0_addr_key_shape key_name
  · rintro ⟨sign, ds, h⟩
    rw [is_ring0_addr_key_iff, sscanf_nodelist_key_of_form key_name sign ds h]
    exact ⟨rfl, rfl⟩

/-! ## The list built from a readable configuration -/

theorem read_data_center_id_eq (cmap : cmap_handle_t) (node_pos : Nat) :
    read_data_center_id cmap node_pos =
      if (cmap.get_uint32 (datacenterid_key node_pos)).1 = CS_OK then
        (cmap.get_uint32 (datacenterid_key node_pos)).2
      else 0 := by
  unfold read_data_center_id
  by_cases h : (cmap.get_uint32 (datacenterid_key node_pos)).1 = CS_OK <;> simp [h]

theorem nodelist_loop_readable (sys : libc) (cmap : cmap_handle_t)
    (hid : ∀ p, (cmap.get_uint32 (nodeid_key p)).1 = CS_OK ∨
      (cmap.get_uint32 (nodeid_key p)).1 = CS_ERR_NOT_EXIST)
    (hadd : ∀ n, sys.calloc_ok n = true) (keys : List String) :
    (∀ k ∈ keys, is_ring0_addr_key k = true → (cmap.get_string k).1 = CS_OK) →
    ∀ (list : node_list) (calls : List (String × Int)),
      (nodelist_loop sys cmap keys list calls).ret = 0 ∧
      (nodelist_loop sys cmap keys list calls).list =
        list ++ (keys.filter is_ring0_addr_key).map (config_node_entry sys cmap) ∧
      (nodelist_loop sys cmap keys list calls).iter_initialized = true ∧
      (nodelist_loop sys cmap keys list calls).iter_finalized = true := by
  induction keys with
  | nil =>
    intro _ list calls
    simp [nodelist_loop, iter_finalize]
  | cons key_name rest ih =>
    intro hstr list calls
    have hrest : ∀ k ∈ rest, is_ring0_addr_key k = true → (cmap.get_string k).1 = CS_OK :=
      fun k hk => hstr k (List.mem_cons_of_mem _ hk)
    by_cases hk : is_ring0_addr_key key_name = true
    · rcases hid (sscanf_nodelist_key key_name).node_pos with hid1 | hid1
      · rw [nodelist_loop_configured sys cmap key_name rest list calls hk hid1 (hadd _)]
        have h := ih hrest
          (list ++ [{ node_id :=
                        (cmap.get_uint32 (nodeid_key (sscanf_nodelist_key key_name).node_pos)).2
                      data_center_id :=
                        read_data_center_id cmap (sscanf_nodelist_key key_name).node_pos
                      node_state := TLV_NODE_STATE_NOT_SET }]) calls
        refine ⟨h.1, ?_, h.2.2⟩
        rw [h.2.1]
        simp [List.filter_cons, hk, config_node_entry, hid1, read_data_center_id_eq]
      · have hs : (cmap.get_string key_name).1 = CS_OK :=
          hstr key_name (List.mem_cons_self _ _) hk
        rw [nodelist_loop_autogenerated sys cmap key_name rest list calls hk hid1 hs (hadd _)]
        have h := ih hrest
          (list ++ [{ node_id :=
                        qdevice_net_cmap_autogenerate_node_id sys.endian sys.getaddrinfo
                          (cmap.get_string key_name).2 (clear_node_high_byte cmap)
                      data_center_id :=
                        read_data_center_id cmap (sscanf_nodelist_key key_name).node_pos
                      node_state := TLV_NODE_STATE_NOT_SET }])
          (calls ++ [((cmap.get_string key_name).2, clear_node_high_byte cmap)])
        refine ⟨h.1, ?_, h.2.2⟩
        rw [h.2.1]
        simp [List.filter_cons, hk, config_node_entry, hid1, read_data_center_id_eq]
    · have hk1 : is_ring0_addr_key key_name = false := by simpa using hk
      rw [nodelist_loop_skip sys cmap key_name rest list calls hk1]
      have h := ih hrest list calls
      refine ⟨h.1, ?_, h.2.2⟩
      rw [h.2.1]
      simp [List.filter_cons, hk1]

/-- Counterexample to C4: in `missing_address_cmap` the iterator initialises, every lookup
of a number or a string succeeds or reports the key missing and no allocation fails, yet
`qdevice_net_cmap_get_nodelist` returns -1 (with the entry of node 0 in the list), because
the read of the ring0 address of node 1 reports the key missing.  And the key
`nodelist.node.-1.ring0_addr` of `signed_key_cmap`, whose number is not an unsigned
numeral, contributes an entry: it is read as position 4294967295. -/
theorem get_nodelist_missing_address_fails :
    (missing_address_cmap.iter_init = CS_OK ∧
      (∀ k, (missing_address_cmap.get_uint32 k).1 = CS_OK ∨
        (missing_address_cmap.get_uint32 k).1 = CS_ERR_NOT_EXIST) ∧
      (∀ k, (missing_address_cmap.get_string k).1 = CS_OK ∨
        (missing_address_cmap.get_string k).1 = CS_ERR_NOT_EXIST) ∧
      (∀ n, sample_libc.calloc_ok n = true)) ∧
    qdevice_net_cmap_get_nodelist sample_libc missing_address_cmap [] =
      { ret := -1
        list := [{ node_id := 5, data_center_id := 0, node_state := TLV_NODE_STATE_NOT_SET }]
        iter_initialized := true
        iter_finalized := false
        autogenerated := [] } ∧
    qdevice_net_cmap_get_nodelist sample_libc signed_key_cmap [] =
      { ret := 0
        list := [{ node_id := 7, data_center_id := 0, node_state := TLV_NODE_STATE_NOT_SET }]
        iter_initialized := true
        iter_finalized := true
        autogenerated := [] } := by
  refine ⟨⟨rfl, ?_, ?_, fun _ => rfl⟩, by decide, by decide⟩
  · intro k
    by_cases h : k = "nodelist.node.0.nodeid" <;> simp [missing_address_cmap, h]
  · intro k
    by_cases h : k = "nodelist.node.0.ring0_addr" <;> simp [missing_address_cmap, h]

/-- C4 (amended): for every configuration map on which the key iterator initialises,
every lookup of a node id either succeeds or reports the key missing, the ring0 address
stored under every iterated ring0 key is read with `CS_OK`, and `node_list_add` does not
fail, `qdevice_net_cmap_get_nodelist` returns 0 with the iterator finalized, and the output
list holds exactly one triple for each iterated key that the scan of line 118 takes for a
ring0 address, in the order of iteration and from no other key.  The keys so taken are
exactly those of the form `nodelist.node.<unsigned>.ring0_addr` as `ring0_addr_key_form`
spells it out (digits with an optional sign; white space skipped before the number and
after the dot; text after white space behind `ring0_addr` ignored), and their position is
the value the conversion `%u` stores.  The triple has the configured node id or, when that
key is missing, the autogenerated one, the data-center id stored under
`nodelist.node.<pos>.datacenterid`, or 0 when that key cannot be read, and the state
`TLV_NODE_STATE_NOT_SET`.  The content the list had before the call does not show in the
result. -/
theorem get_nodelist_config_order (sys : libc) (cmap : cmap_handle_t) (list : node_list)
    (hinit : cmap.iter_init = CS_OK)
    (hid : ∀ p, (cmap.get_uint32 (nodeid_key p)).1 = CS_OK ∨
      (cmap.get_uint32 (nodeid_key p)).1 = CS_ERR_NOT_EXIST)
    (hstr : ∀ k ∈ cmap.iter_keys, is_ring0_addr_key k = true → (cmap.get_string k).1 = CS_OK)
    (hadd : ∀ n, sys.calloc_ok n = true) :
    (qdevice_net_cmap_get_nodelist sys cmap list).ret = 0 ∧
    (qdevice_net_cmap_get_nodelist sys cmap list).list =
      (cmap.iter_keys.filter is_ring0_addr_key).map (config_node_entry sys cmap) ∧
    (qdevice_net_cmap_get_nodelist sys cmap list).iter_finalized = true ∧
    (∀ k, (config_node_entry sys cmap k).node_state = TLV_NODE_STATE_NOT_SET ∧
      (config_node_entry sys cmap k).data_center_id =
        (if (cmap.get_uint32 (datacenterid_key (sscanf_nodelist_key k).node_pos)).1 = CS_OK
         then (cmap.get_uint32 (datacenterid_key (sscanf_nodelist_key k).node_pos)).2
         else 0) ∧
      (config_node_entry sys cmap k).node_id =
        (if (cmap.get_uint32 (nodeid_key (sscanf_nodelist_key k).node_pos)).1 = CS_OK
         then (cmap.get_uint32 (nodeid_key (sscanf_nodelist_key k).node_pos)).2
         else qdevice_net_cmap_autogenerate_node_id sys.endian sys.getaddrinfo
           (cmap.get_string k).2 (clear_node_high_byte cmap))) ∧
    qdevice_net_cmap_get_nodelist sys cmap list = qdevice_net_cmap_get_nodelist sys cmap [] ∧
    (∀ k : String, is_ring0_addr_key k = true ↔ ∃ sign ds, ring0_addr_key_form k sign ds) ∧
    (∀ (k : String) (sign ds : List Char), ring0_addr_key_form k sign ds →
      (sscanf_nodelist_key k).node_pos =
        unsigned_conversion (decide (sign = ['-'])) (digits_value ds)) := by
  have h := nodelist_loop_readable sys cmap hid hadd cmap.iter_keys hstr [] []
  have hrun : qdevice_net_cmap_get_nodelist sys cmap list =
      nodelist_loop sys cmap cmap.iter_keys [] [] := by
    simp [qdevice_net_cmap_get_nodelist, hinit, node_list_init]
  have hrun0 : qdevice_net_cmap_get_nodelist sys cmap [] =
      nodelist_loop sys cmap cmap.iter_keys [] [] := by
    simp [qdevice_net_cmap_get_nodelist, hinit, node_list_init]
  refine ⟨?_, ?_, ?_, ?_, ?_, ?_, ?_⟩
  · rw [hrun]; exact h.1
  · rw [hrun, h.2.1]; simp
  · rw [hrun]; exact h.2.2.2
  · intro k
    exact ⟨rfl, rfl, rfl⟩
  · rw [hrun, hrun0]
  · exact is_ring0_addr_key_iff_form
  · intro k sign ds hk
    rw [sscanf_nodelist_key_of_form k sign ds hk]

/-- Witness of C4 (amended): the sample configuration, called on a list that already
holds an entry. -/
theorem get_nodelist_config_order_witness :
    (qdevice_net_cmap_get_nodelist sample_libc sample_cmap
        [{ node_id := 9, data_center_id := 9, node_state := TLV_NODE_STATE_MEMBER }]).list =
      [{ node_id := 5, data_center_id := 0, node_state := TLV_NODE_STATE_NOT_SET },
       { node_id := 1084752138, data_center_id := 2, node_state := TLV_NODE_STATE_NOT_SET }] :=
  ((get_nodelist_config_order sample_libc sample_cmap
    [{ node_id := 9, data_center_id := 9, node_state := TLV_NODE_STATE_MEMBER }]
    rfl
    (by
      intro p
      by_cases h1 : nodeid_key p = "nodelist.node.0.nodeid"
      · simp [sample_cmap, h1]
      · by_cases h2 : nodeid_key p = "nodelist.node.1.datacenterid" <;>
          simp [sample_cmap, h1, h2])
    (by decide)
    (fun _ => rfl)).2.1).trans (by decide)

/-! ## Failure paths of `qdevice_net_cmap_get_nodelist` -/

theorem nodelist_loop_finalized_failure (sys : libc) (cmap : cmap_handle_t)
    (keys : List String) :
    ∀ (list : node_list) (calls : List (String × Int)),
      (nodelist_loop sys cmap keys list calls).iter_finalized = true →
      (nodelist_loop sys cmap keys list calls).ret ≠ 0 →
      (nodelist_loop sys cmap keys list calls).list = [] := by
  induction keys with
  | nil =>
    intro list calls _ h
    simp [nodelist_loop, iter_finalize] at h
  | cons key_name rest ih =>
    intro list calls
    rw [nodelist_loop]
    simp only []
    split_ifs
    · exact ih list calls
    · exact ih list calls
    · simp
    · split
      · simp [iter_finalize, node_list_free]
      · exact ih _ _
    · simp [iter_finalize, node_list_free]
    · split
      · simp [iter_finalize, node_list_free]
      · exact ih _ _

/-- The failure paths of `qdevice_net_cmap_get_nodelist` that go through the label
`iter_finalize`, and the failure of `cmap_iter_init`, leave an empty list. -/
theorem get_nodelist_failure_after_finalize (sys : libc) (cmap : cmap_handle_t)
    (list : node_list)
    (hret : (qdevice_net_cmap_get_nodelist sys cmap list).ret ≠ 0)
    (hfin : (qdevice_net_cmap_get_nodelist sys cmap list).iter_finalized =
      (qdevice_net_cmap_get_nodelist sys cmap list).iter_initialized) :
    (qdevice_net_cmap_get_nodelist sys cmap list).list = [] := by
  unfold qdevice_net_cmap_get_nodelist at hret hfin ⊢
  by_cases hinit : cmap.iter_init = CS_OK
  · simp only [hinit, ne_eq, not_true_eq_false, if_false] at hret hfin ⊢
    by_cases hf : (nodelist_loop sys cmap cmap.iter_keys (node_list_init list) []).iter_finalized
        = true
    · exact nodelist_loop_finalized_failure sys cmap _ _ _ hf hret
    · exfalso
      have hi : (nodelist_loop sys cmap cmap.iter_keys (node_list_init list) []).iter_initialized
          = true := by
        generalize node_list_init list = l0
        generalize ([] : List (String × Int)) = c0
        induction cmap.iter_keys generalizing l0 c0 with
        | nil => simp [nodelist_loop, iter_finalize]
        | cons key_name rest ih =>
          rw [nodelist_loop]
          simp only []
          split_ifs
          · exact ih _ _
          · exact ih _ _
          · simp
          · split
            · simp [iter_finalize]
            · exact ih _ _
          · simp [iter_finalize]
          · split
            · simp [iter_finalize]
            · exact ih _ _
      rw [hi] at hfin
      exact hf hfin
  · simp [hinit, node_list_init]

/-- C8 (evaluation at the failing input): with node 0 configured and the read of the ring0
address of node 1 failing, `qdevice_net_cmap_get_nodelist` returns -1 while the list still
holds the entry of node 0 and the iterator has not been finalized. -/
theorem get_nodelist_address_read_failure :
    qdevice_net_cmap_get_nodelist sample_libc address_read_fails_cmap [] =
      { ret := -1
        list := [{ node_id := 5, data_center_id := 0, node_state := TLV_NODE_STATE_NOT_SET }]
        iter_initialized := true
        iter_finalized := false
        autogenerated := [] } := by
  decide

/-! ## Addresses that do not resolve -/

theorem autogenerate_unresolved (e : Endian) (getaddrinfo : String → Int × addrinfo)
    (addr : String) (clear : Int)
    (h : (getaddrinfo addr).1 ≠ 0 ∨ (getaddrinfo addr).2.ai_family ≠ AF_INET) :
    qdevice_net_cmap_autogenerate_node_id e getaddrinfo addr clear = 0 := by
  unfold qdevice_net_cmap_autogenerate_node_id
  by_cases h1 : (getaddrinfo addr).1 = 0
  · rcases h with h | h
    · exact absurd h1 h
    · simp [h1, h, toUInt32]
  · simp [h1, toUInt32]

/-- C9: when the ring0 address does not resolve to an IPv4 address (`getaddrinfo` fails
or the result is not `AF_INET`), `qdevice_net_cmap_autogenerate_node_id` returns 0 for
every clear flag; `qdevice_net_cmap_get_nodelist` does not take this for an error: the
iteration appends an entry with node id 0 and goes on with the next key, and a
configuration that ends with such a key gives the return value 0.  The addresses 0.0.0.0
and, with the flag set, 128.0.0.0 give the node id 0 as well. -/
theorem get_nodelist_unresolved_address (sys : libc) (cmap : cmap_handle_t) (key_name : String)
    (rest : List String) (list : node_list) (calls : List (String × Int))
    (hkey : is_ring0_addr_key key_name = true)
    (hid : (cmap.get_uint32 (nodeid_key (sscanf_nodelist_key key_name).node_pos)).1 =
      CS_ERR_NOT_EXIST)
    (hstr : (cmap.get_string key_name).1 = CS_OK)
    (hunres : (sys.getaddrinfo (cmap.get_string key_name).2).1 ≠ 0 ∨
      (sys.getaddrinfo (cmap.get_string key_name).2).2.ai_family ≠ AF_INET)
    (hadd : sys.calloc_ok list.length = true) :
    (∀ (e : Endian) (clear : Int),
      qdevice_net_cmap_autogenerate_node_id e sys.getaddrinfo (cmap.get_string key_name).2
        clear = 0) ∧
    nodelist_loop sys cmap (key_name :: rest) list calls =
      nodelist_loop sys cmap rest
        (list ++ [{ node_id := 0
                    data_center_id :=
                      read_data_center_id cmap (sscanf_nodelist_key key_name).node_pos
                    node_state := TLV_NODE_STATE_NOT_SET }])
        (calls ++ [((cmap.get_string key_name).2, clear_node_high_byte cmap)]) ∧
    (nodelist_loop sys cmap [key_name] list calls).ret = 0 ∧
    (nodelist_loop sys cmap [key_name] list calls).list =
      list ++ [{ node_id := 0
                 data_center_id :=
                   read_data_center_id cmap (sscanf_nodelist_key key_name).node_pos
                 node_state := TLV_NODE_STATE_NOT_SET }] ∧
    (∀ (e : Endian) (getaddrinfo : String → Int × addrinfo) (addr : String) (clear : Int),
      getaddrinfo addr =
        (0, { ai_family := AF_INET, sin_addr := { b0 := 0, b1 := 0, b2 := 0, b3 := 0 } }) →
      qdevice_net_cmap_autogenerate_node_id e getaddrinfo addr clear = 0) ∧
    (∀ (e : Endian) (getaddrinfo : String → Int × addrinfo) (addr : String) (clear : Int),
      clear ≠ 0 →
      getaddrinfo addr =
        (0, { ai_family := AF_INET, sin_addr := { b0 := 128, b1 := 0, b2 := 0, b3 := 0 } }) →
      qdevice_net_cmap_autogenerate_node_id e getaddrinfo addr clear = 0) := by
  have hzero := fun (e : Endian) (clear : Int) =>
    autogenerate_unresolved e sys.getaddrinfo (cmap.get_string key_name).2 clear hunres
  have hstep := nodelist_loop_autogenerated sys cmap key_name rest list calls hkey hid hstr hadd
  have hlast := nodelist_loop_autogenerated sys cmap key_name [] list calls hkey hid hstr hadd
  rw [hzero] at hstep hlast
  refine ⟨hzero, hstep, ?_, ?_, ?_, ?_⟩
  · rw [hlast]
    simp [nodelist_loop, iter_finalize]
  · rw [hlast]
    simp [nodelist_loop, iter_finalize]
  · intro e getaddrinfo addr clear hres
    rw [autogenerate_resolved e getaddrinfo addr _ clear (by decide) hres]
    split <;> simp [network_order_value]
  · intro e getaddrinfo addr clear hc hres
    rw [autogenerate_resolved e getaddrinfo addr _ clear (by decide) hres, if_pos hc]
    simp [network_order_value]

/-- Witness of C9: the only node of the configuration has the address `node-a.invalid`,
which the sample host does not resolve; the call returns 0 and the list holds one entry
with node id 0. -/
theorem get_nodelist_unresolved_address_witness :
    (nodelist_loop sample_libc unresolvable_cmap ["nodelist.node.0.ring0_addr"] [] []).ret = 0 ∧
    (nodelist_loop sample_libc unresolvable_cmap ["nodelist.node.0.ring0_addr"] [] []).list =
      [{ node_id := 0, data_center_id := 0, node_state := TLV_NODE_STATE_NOT_SET }] :=
  ⟨(get_nodelist_unresolved_address sample_libc unresolvable_cmap "nodelist.node.0.ring0_addr"
      [] [] [] (by decide) (by decide) (by decide) (by decide) (by decide)).2.2.1,
   ((get_nodelist_unresolved_address sample_libc unresolvable_cmap "nodelist.node.0.ring0_addr"
      [] [] [] (by decide) (by decide) (by decide) (by decide) (by decide)).2.2.2.1).trans
      (by decide)⟩

/-! ## The callback for changes of the configuration -/

/-- C5: for every call of `qdevice_net_cmap_nodelist_reload_cb` in which the cmap context
is obtained, `qdevice_net_send_config_node_list` is called exactly once if and only if the
event is not "reload key set to uint8 1", the flag `cmap_reload_in_progress` is 0 after
the event has been processed and the map does not report the reload key as 1; otherwise
it is not called.  The flag is 1 after a reload-key event with uint8 value 1, 0 after a
reload-key event with another uint8 value, and as before after every other event. -/
theorem reload_cb_sends_iff_no_reload (cmap_handle : cmap_handle_t) (send_result : Int)
    (key_name : String) (new_value : cmap_notify_value) (inst : qdevice_net_instance)
    (hctx : cmap_handle.context_get = CS_OK) :
    ((qdevice_net_cmap_nodelist_reload_cb cmap_handle send_result key_name new_value
          inst).sends = 1 ↔
      (¬ reload_started key_name new_value ∧
        (qdevice_net_cmap_nodelist_reload_cb cmap_handle send_result key_name new_value
          inst).inst.cmap_reload_in_progress = 0 ∧
        ¬ map_reports_reload cmap_handle)) ∧
    ((qdevice_net_cmap_nodelist_reload_cb cmap_handle send_result key_name new_value
          inst).sends ≠ 1 →
      (qdevice_net_cmap_nodelist_reload_cb cmap_handle send_result key_name new_value
          inst).sends = 0) ∧
    (reload_started key_name new_value →
      (qdevice_net_cmap_nodelist_reload_cb cmap_handle send_result key_name new_value
          inst).inst.cmap_reload_in_progress = 1) ∧
    (reload_finished key_name new_value →
      (qdevice_net_cmap_nodelist_reload_cb cmap_handle send_result key_name new_value
          inst).inst.cmap_reload_in_progress = 0) ∧
    (¬ reload_started key_name new_value → ¬ reload_finished key_name new_value →
      (qdevice_net_cmap_nodelist_reload_cb cmap_handle send_result key_name new_value
          inst).inst.cmap_reload_in_progress = inst.cmap_reload_in_progress) := by
  by_cases hE : key_name = reload_key ∧ new_value.type = CMAP_VALUETYPE_UINT8 ∧
      new_value.len = 1 <;>
  by_cases hm : new_value.data.take 1 = [1] <;>
  by_cases hf : inst.cmap_reload_in_progress = 0 <;>
  by_cases hg : (cmap_handle.get_uint8 reload_key).1 = CS_OK ∧
      (cmap_handle.get_uint8 reload_key).2 = 1 <;>
  by_cases hs : send_result = 0 <;>
  simp [qdevice_net_cmap_nodelist_reload_cb, reload_started, reload_finished,
    map_reports_reload, memcmp_reload, hctx, hE, hm, hf, hg, hs]

/-- Witness of C5: a change of a node address while no reload is in progress is pushed. -/
theorem reload_cb_sends_iff_no_reload_witness :
    (qdevice_net_cmap_nodelist_reload_cb sample_cmap 0 "nodelist.node.0.ring0_addr"
        { type := CMAP_VALUETYPE_STRING, len := 9, data := [49, 48, 46, 48, 46, 48, 46, 50, 0] }
        { cmap_reload_in_progress := 0, schedule_disconnect := 0,
          disconnect_reason := QDEVICE_NET_DISCONNECT_REASON_UNDEFINED }).sends = 1 :=
  (reload_cb_sends_iff_no_reload sample_cmap 0 "nodelist.node.0.ring0_addr"
    { type := CMAP_VALUETYPE_STRING, len := 9, data := [49, 48, 46, 48, 46, 48, 46, 50, 0] }
    { cmap_reload_in_progress := 0, schedule_disconnect := 0,
      disconnect_reason := QDEVICE_NET_DISCONNECT_REASON_UNDEFINED } rfl).1.2
    ⟨by decide, by decide, by decide⟩

/-- C6: the scheduled disconnect is a latch with a typed reason.  For every call of
`qdevice_net_cmap_nodelist_reload_cb`: the send of the config node list is made exactly
when the inputs satisfy `send_attempted`; when it is made and fails
(`send_result ≠ 0`), on return `schedule_disconnect = 1` and `disconnect_reason` is
`QDEVICE_NET_DISCONNECT_REASON_CANT_ALLOCATE_MSG_BUFFER`, and the callback returns to its
caller; when the send succeeds or is not made, both fields are as before.  No call turns
`schedule_disconnect` from 1 (or any non-zero value) back to 0. -/
theorem reload_cb_disconnect_latch (cmap_handle : cmap_handle_t) (send_result : Int)
    (key_name : String) (new_value : cmap_notify_value) (inst : qdevice_net_instance) :
    (send_attempted cmap_handle key_name new_value inst →
      (qdevice_net_cmap_nodelist_reload_cb cmap_handle send_result key_name new_value
          inst).sends = 1) ∧
    (¬ send_attempted cmap_handle key_name new_value inst →
      (qdevice_net_cmap_nodelist_reload_cb cmap_handle send_result key_name new_value
          inst).sends = 0) ∧
    (send_attempted cmap_handle key_name new_value inst ∧ send_result ≠ 0 →
      (qdevice_net_cmap_nodelist_reload_cb cmap_handle send_result key_name new_value
          inst).inst.schedule_disconnect = 1 ∧
      (qdevice_net_cmap_nodelist_reload_cb cmap_handle send_result key_name new_value
          inst).inst.disconnect_reason =
        QDEVICE_NET_DISCONNECT_REASON_CANT_ALLOCATE_MSG_BUFFER ∧
      (qdevice_net_cmap_nodelist_reload_cb cmap_handle send_result key_name new_value
          inst).exit_status = none) ∧
    (¬ send_attempted cmap_handle key_name new_value inst ∨ send_result = 0 →
      (qdevice_net_cmap_nodelist_reload_cb cmap_handle send_result key_name new_value
          inst).inst.schedule_disconnect = inst.schedule_disconnect ∧
      (qdevice_net_cmap_nodelist_reload_cb cmap_handle send_result key_name new_value
          inst).inst.disconnect_reason = inst.disconnect_reason) ∧
    ((qdevice_net_cmap_nodelist_reload_cb cmap_handle send_result key_name new_value
          inst).sends = 1 ∧ send_result ≠ 0 →
      (qdevice_net_cmap_nodelist_reload_cb cmap_handle send_result key_name new_value
          inst).inst.schedule_disconnect = 1 ∧
      (qdevice_net_cmap_nodelist_reload_cb cmap_handle send_result key_name new_value
          inst).inst.disconnect_reason =
        QDEVICE_NET_DISCONNECT_REASON_CANT_ALLOCATE_MSG_BUFFER ∧
      (qdevice_net_cmap_nodelist_reload_cb cmap_handle send_result key_name new_value
          inst).exit_status = none) ∧
    ((qdevice_net_cmap_nodelist_reload_cb cmap_handle send_result key_name new_value
          inst).sends = 0 ∨ send_result = 0 →
      (qdevice_net_cmap_nodelist_reload_cb cmap_handle send_result key_name new_value
          inst).inst.schedule_disconnect = inst.schedule_disconnect ∧
      (qdevice_net_cmap_nodelist_reload_cb cmap_handle send_result key_name new_value
          inst).inst.disconnect_reason = inst.disconnect_reason) ∧
    (inst.schedule_disconnect = 1 →
      (qdevice_net_cmap_nodelist_reload_cb cmap_handle send_result key_name new_value
          inst).inst.schedule_disconnect = 1) ∧
    (inst.schedule_disconnect ≠ 0 →
      (qdevice_net_cmap_nodelist_reload_cb cmap_handle send_result key_name new_value
          inst).inst.schedule_disconnect ≠ 0) := by
  by_cases hctx : cmap_handle.context_get = CS_OK <;>
  by_cases hE : key_name = reload_key ∧ new_value.type = CMAP_VALUETYPE_UINT8 ∧
      new_value.len = 1 <;>
  by_cases hm : new_value.data.take 1 = [1] <;>
  by_cases hf : inst.cmap_reload_in_progress = 0 <;>
  by_cases hg : (cmap_handle.get_uint8 reload_key).1 = CS_OK ∧
      (cmap_handle.get_uint8 reload_key).2 = 1 <;>
  by_cases hs : send_result = 0 <;>
  simp [qdevice_net_cmap_nodelist_reload_cb, send_attempted, reload_started, reload_finished,
    map_reports_reload, memcmp_reload, hctx, hE, hm, hf, hg, hs]

/-- Witness of C6: a change of a node address while no reload is in progress, with the
send failing: the send is made, the callback returns, and the disconnect is latched with
the reason `QDEVICE_NET_DISCONNECT_REASON_CANT_ALLOCATE_MSG_BUFFER`. -/
theorem reload_cb_disconnect_latch_witness :
    (qdevice_net_cmap_nodelist_reload_cb sample_cmap (-1) "nodelist.node.0.ring0_addr"
        { type := CMAP_VALUETYPE_STRING, len := 9, data := [49, 48, 46, 48, 46, 48, 46, 50, 0] }
        { cmap_reload_in_progress := 0, schedule_disconnect := 0,
          disconnect_reason := QDEVICE_NET_DISCONNECT_REASON_UNDEFINED }).sends = 1 ∧
    ((qdevice_net_cmap_nodelist_reload_cb sample_cmap (-1) "nodelist.node.0.ring0_addr"
        { type := CMAP_VALUETYPE_STRING, len := 9, data := [49, 48, 46, 48, 46, 48, 46, 50, 0] }
        { cmap_reload_in_progress := 0, schedule_disconnect := 0,
          disconnect_reason := QDEVICE_NET_DISCONNECT_REASON_UNDEFINED }).inst.schedule_disconnect
        = 1 ∧
      (qdevice_net_cmap_nodelist_reload_cb sample_cmap (-1) "nodelist.node.0.ring0_addr"
        { type := CMAP_VALUETYPE_STRING, len := 9, data := [49, 48, 46, 48, 46, 48, 46, 50, 0] }
        { cmap_reload_in_progress := 0, schedule_disconnect := 0,
          disconnect_reason := QDEVICE_NET_DISCONNECT_REASON_UNDEFINED }).inst.disconnect_reason
        = QDEVICE_NET_DISCONNECT_REASON_CANT_ALLOCATE_MSG_BUFFER ∧
      (qdevice_net_cmap_nodelist_reload_cb sample_cmap (-1) "nodelist.node.0.ring0_addr"
        { type := CMAP_VALUETYPE_STRING, len := 9, data := [49, 48, 46, 48, 46, 48, 46, 50, 0] }
        { cmap_reload_in_progress := 0, schedule_disconnect := 0,
          disconnect_reason := QDEVICE_NET_DISCONNECT_REASON_UNDEFINED }).exit_status = none) :=
  ⟨(reload_cb_disconnect_latch sample_cmap (-1) "nodelist.node.0.ring0_addr"
      { type := CMAP_VALUETYPE_STRING, len := 9, data := [49, 48, 46, 48, 46, 48, 46, 50, 0] }
      { cmap_reload_in_progress := 0, schedule_disconnect := 0,
        disconnect_reason := QDEVICE_NET_DISCONNECT_REASON_UNDEFINED }).1 (by decide),
   (reload_cb_disconnect_latch sample_cmap (-1) "nodelist.node.0.ring0_addr"
      { type := CMAP_VALUETYPE_STRING, len := 9, data := [49, 48, 46, 48, 46, 48, 46, 50, 0] }
      { cmap_reload_in_progress := 0, schedule_disconnect := 0,
        disconnect_reason := QDEVICE_NET_DISCONNECT_REASON_UNDEFINED }).2.2.1
      ⟨by decide, by decide⟩⟩

/-- Counterexample to C7: when `cmap_context_get` fails (here with error code 2), the
callback ends the process with `exit(1)` instead of returning; so it is not true that the
callback returns for every result of its collaborators. -/
theorem reload_cb_context_failure_exits :
    (qdevice_net_cmap_nodelist_reload_cb
        { sample_cmap with context_get := CS_ERR_OTHER 2 } 0 "nodelist.node.0.ring0_addr"
        { type := CMAP_VALUETYPE_STRING, len := 9, data := [49, 48, 46, 48, 46, 48, 46, 50, 0] }
        { cmap_reload_in_progress := 0, schedule_disconnect := 0,
          disconnect_reason := QDEVICE_NET_DISCONNECT_REASON_UNDEFINED }).exit_status =
      some 1 ∧
    ¬ (∀ (cmap_handle : cmap_handle_t) (send_result : Int) (key_name : String)
        (new_value : cmap_notify_value) (inst : qdevice_net_instance),
        (qdevice_net_cmap_nodelist_reload_cb cmap_handle send_result key_name new_value
          inst).exit_status = none) := by
  refine ⟨by decide, ?_⟩
  intro h
  have h1 := h { sample_cmap with context_get := CS_ERR_OTHER 2 } 0 "nodelist.node.0.ring0_addr"
    { type := CMAP_VALUETYPE_STRING, len := 9, data := [49, 48, 46, 48, 46, 48, 46, 50, 0] }
    { cmap_reload_in_progress := 0, schedule_disconnect := 0,
      disconnect_reason := QDEVICE_NET_DISCONNECT_REASON_UNDEFINED }
  revert h1
  decide

/-- C7 (amended): for every call of `qdevice_net_cmap_nodelist_reload_cb` in which
`cmap_context_get` returns `CS_OK`, and every result of `cmap_get_uint8` and of
`qdevice_net_send_config_node_list`, the callback returns to its caller, and the latch
fields are either as before or hold the latched disconnect
(`schedule_disconnect = 1` with reason
`QDEVICE_NET_DISCONNECT_REASON_CANT_ALLOCATE_MSG_BUFFER`); when `cmap_context_get` fails
the callback ends the process with `exit(1)`, the instance untouched and nothing sent. -/
theorem reload_cb_returns_unless_context_fails (cmap_handle : cmap_handle_t)
    (send_result : Int) (key_name : String) (new_value : cmap_notify_value)
    (inst : qdevice_net_instance) :
    (cmap_handle.context_get = CS_OK →
      (qdevice_net_cmap_nodelist_reload_cb cmap_handle send_result key_name new_value
          inst).exit_status = none ∧
      (((qdevice_net_cmap_nodelist_reload_cb cmap_handle send_result key_name new_value
            inst).inst.schedule_disconnect = inst.schedule_disconnect ∧
          (qdevice_net_cmap_nodelist_reload_cb cmap_handle send_result key_name new_value
            inst).inst.disconnect_reason = inst.disconnect_reason) ∨
        ((qdevice_net_cmap_nodelist_reload_cb cmap_handle send_result key_name new_value
            inst).inst.schedule_disconnect = 1 ∧
          (qdevice_net_cmap_nodelist_reload_cb cmap_handle send_result key_name new_value
            inst).inst.disconnect_reason =
              QDEVICE_NET_DISCONNECT_REASON_CANT_ALLOCATE_MSG_BUFFER))) ∧
    (cmap_handle.context_get ≠ CS_OK →
      qdevice_net_cmap_nodelist_reload_cb cmap_handle send_result key_name new_value inst =
        { exit_status := some 1, inst := inst, sends := 0 }) := by
  by_cases hctx : cmap_handle.context_get = CS_OK <;>
  by_cases hE : key_name = reload_key ∧ new_value.type = CMAP_VALUETYPE_UINT8 ∧
      new_value.len = 1 <;>
  by_cases hm : new_value.data.take 1 = [1] <;>
  by_cases hf : inst.cmap_reload_in_progress = 0 <;>
  by_cases hg : (cmap_handle.get_uint8 reload_key).1 = CS_OK ∧
      (cmap_handle.get_uint8 reload_key).2 = 1 <;>
  by_cases hs : send_result = 0 <;>
  simp [qdevice_net_cmap_nodelist_reload_cb, memcmp_reload, hctx, hE, hm, hf, hg, hs]

/-- Witness of C7 (amended): with the context obtained and the send failing, the callback
returns and the disconnect is latched. -/
theorem reload_cb_returns_unless_context_fails_witness :
    (qdevice_net_cmap_nodelist_reload_cb sample_cmap (-1) "nodelist.node.0.ring0_addr"
        { type := CMAP_VALUETYPE_STRING, len := 9, data := [49, 48, 46, 48, 46, 48, 46, 50, 0] }
        { cmap_reload_in_progress := 0, schedule_disconnect := 0,
          disconnect_reason := QDEVICE_NET_DISCONNECT_REASON_UNDEFINED }).exit_status = none :=
  ((reload_cb_returns_unless_context_fails sample_cmap (-1) "nodelist.node.0.ring0_addr"
    { type := CMAP_VALUETYPE_STRING, len := 9, data := [49, 48, 46, 48, 46, 48, 46, 50, 0] }
    { cmap_reload_in_progress := 0, schedule_disconnect := 0,
      disconnect_reason := QDEVICE_NET_DISCONNECT_REASON_UNDEFINED }).1 rfl).1

/-! ## Initialisation of the cmap connection -/

theorem cmap_init_loop_stop (cmap_initialize_result : Nat → cs_error_t) (max_try_again n : Nat)
    (h : cmap_initialize_result n ≠ CS_ERR_TRY_AGAIN ∨ ¬ n < max_try_again) :
    cmap_init_loop cmap_initialize_result max_try_again n n =
      { exited := decide (cmap_initialize_result n ≠ CS_OK), res := cmap_initialize_result n,
        calls := n + 1, polls := n } := by
  rw [cmap_init_loop]
  by_cases h1 : cmap_initialize_result n = CS_ERR_TRY_AGAIN
  · have h2 : ¬ n < max_try_again := h.resolve_left (fun hh => hh h1)
    simp [h1, h2]
  · simp [h1]

theorem cmap_init_loop_retry (cmap_initialize_result : Nat → cs_error_t) (max_try_again n : Nat)
    (h1 : cmap_initialize_result n = CS_ERR_TRY_AGAIN) (h2 : n < max_try_again) :
    cmap_init_loop cmap_initialize_result max_try_again n n =
      cmap_init_loop cmap_initialize_result max_try_again (n + 1) (n + 1) := by
  rw [cmap_init_loop]
  simp [h1, h2]

theorem cmap_init_loop_spec (cmap_initialize_result : Nat → cs_error_t) (max_try_again : Nat)
    (k : Nat) :
    ∀ n, max_try_again - n = k → n ≤ max_try_again →
      (∀ i, i < n → cmap_initialize_result i = CS_ERR_TRY_AGAIN) →
      n + 1 ≤ (cmap_init_loop cmap_initialize_result max_try_again n n).calls ∧
      (cmap_init_loop cmap_initialize_result max_try_again n n).calls ≤ max_try_again + 1 ∧
      (cmap_init_loop cmap_initialize_result max_try_again n n).res =
        cmap_initialize_result
          ((cmap_init_loop cmap_initialize_result max_try_again n n).calls - 1) ∧
      (∀ i, i + 1 < (cmap_init_loop cmap_initialize_result max_try_again n n).calls →
        cmap_initialize_result i = CS_ERR_TRY_AGAIN) ∧
      (cmap_init_loop cmap_initialize_result max_try_again n n).polls + 1 =
        (cmap_init_loop cmap_initialize_result max_try_again n n).calls ∧
      ((cmap_init_loop cmap_initialize_result max_try_again n n).res = CS_ERR_TRY_AGAIN →
        (cmap_init_loop cmap_initialize_result max_try_again n n).calls =
          max_try_again + 1) ∧
      ((cmap_init_loop cmap_initialize_result max_try_again n n).exited = false ↔
        (cmap_init_loop cmap_initialize_result max_try_again n n).res = CS_OK) := by
  induction k with
  | zero =>
    intro n hk hn hprev
    have hnm : ¬ n < max_try_again := by omega
    rw [cmap_init_loop_stop cmap_initialize_result max_try_again n (Or.inr hnm)]
    refine ⟨le_refl _, by simp; omega, by simp, ?_, rfl, fun _ => by simp; omega, by simp⟩
    intro i hi
    exact hprev i (by simpa using hi)
  | succ k ih =>
    intro n hk hn hprev
    have hnm : n < max_try_again := by omega
    by_cases h1 : cmap_initialize_result n = CS_ERR_TRY_AGAIN
    · rw [cmap_init_loop_retry cmap_initialize_result max_try_again n h1 hnm]
      have hprev1 : ∀ i, i < n + 1 → cmap_initialize_result i = CS_ERR_TRY_AGAIN := by
        intro i hi
        rcases Nat.lt_succ_iff_lt_or_eq.1 hi with h | h
        · exact hprev i h
        · rw [h]; exact h1
      have h := ih (n + 1) (by omega) (by omega) hprev1
      exact ⟨by omega, h.2⟩
    · rw [cmap_init_loop_stop cmap_initialize_result max_try_again n (Or.inl h1)]
      refine ⟨le_refl _, by simp; omega, by simp, ?_, rfl, fun h => absurd h h1, by simp⟩
      intro i hi
      exact hprev i (by simpa using hi)

/-- C10: `qdevice_net_cmap_init` terminates for every sequence of results of
`cmap_initialize` (the function is total): it makes at least one and at most
`QDEVICE_NET_MAX_CS_TRY_AGAIN + 1` calls, every call but the last returned
`CS_ERR_TRY_AGAIN` and was followed by one wait of a second, the loop stops on
`CS_ERR_TRY_AGAIN` only after `QDEVICE_NET_MAX_CS_TRY_AGAIN + 1` calls, and the function
returns to its caller if and only if the last call returned `CS_OK`; for every other last
result, `CS_ERR_TRY_AGAIN` included, it ends in `errx(1, ...)`. -/
theorem cmap_init_bounded_retries (cmap_initialize_result : Nat → cs_error_t)
    (max_try_again : Nat) :
    1 ≤ (qdevice_net_cmap_init cmap_initialize_result max_try_again).calls ∧
    (qdevice_net_cmap_init cmap_initialize_result max_try_again).calls ≤ max_try_again + 1 ∧
    (∀ i, i + 1 < (qdevice_net_cmap_init cmap_initialize_result max_try_again).calls →
      cmap_initialize_result i = CS_ERR_TRY_AGAIN) ∧
    (qdevice_net_cmap_init cmap_initialize_result max_try_again).polls + 1 =
      (qdevice_net_cmap_init cmap_initialize_result max_try_again).calls ∧
    (cmap_initialize_result
        ((qdevice_net_cmap_init cmap_initialize_result max_try_again).calls - 1) =
          CS_ERR_TRY_AGAIN →
      (qdevice_net_cmap_init cmap_initialize_result max_try_again).calls = max_try_again + 1) ∧
    ((qdevice_net_cmap_init cmap_initialize_result max_try_again).exited = false ↔
      cmap_initialize_result
        ((qdevice_net_cmap_init cmap_initialize_result max_try_again).calls - 1) = CS_OK) ∧
    ((qdevice_net_cmap_init cmap_initialize_result max_try_again).exited = true ↔
      cmap_initialize_result
        ((qdevice_net_cmap_init cmap_initialize_result max_try_again).calls - 1) ≠ CS_OK) := by
  have h := cmap_init_loop_spec cmap_initialize_result max_try_again (max_try_again - 0) 0 rfl
    (Nat.zero_le _) (fun i hi => absurd hi (Nat.not_lt_zero i))
  unfold qdevice_net_cmap_init
  obtain ⟨h1, h2, h3, h4, h5, h6, h7⟩ := h
  rw [h3] at h6 h7
  refine ⟨h1, h2, h4, h5, h6, h7, ?_⟩
  rw [Ne, ← h7]
  cases (cmap_init_loop cmap_initialize_result max_try_again 0 0).exited <;> simp

/-- Evaluation of `qdevice_net_cmap_init`: with ten retries allowed and a library that
answers `CS_ERR_TRY_AGAIN` three times and then `CS_OK`, the function makes four calls,
waits three times and returns. -/
theorem cmap_init_three_retries :
    qdevice_net_cmap_init (fun n => if n < 3 then CS_ERR_TRY_AGAIN else CS_OK) 10 =
      { exited := false, res := CS_OK, calls := 4, polls := 3 } := by
  simp [qdevice_net_cmap_init, cmap_init_loop]

/-- Evaluation of `qdevice_net_cmap_init`: with two retries allowed and a library that
always answers `CS_ERR_TRY_AGAIN`, the function makes three calls and ends in `errx`. -/
theorem cmap_init_retries_exhausted :
    qdevice_net_cmap_init (fun _ => CS_ERR_TRY_AGAIN) 2 =
      { exited := true, res := CS_ERR_TRY_AGAIN, calls := 3, polls := 2 } := by
  simp [qdevice_net_cmap_init, cmap_init_loop]

end Qdevice
